import Mathlib

/-!
# MCP342X driver (bmslearn): configuration-register codec and device session

A shallow embedding of `Src/MCP342X.c` and `Inc/MCP342X.h`.

* C enumerations become inductive types whose constructors keep the C names; the
  numeric value the C compiler gives each enumerator is recorded by a `toNat` function.
* `uint8_t` values are natural numbers reduced modulo `2^8`, `int16_t` values are
  integers obtained by the twos-complement reading of a 16-bit word.
* The file-scope variable `currentConfig` and the traffic on the I2C bus are made explicit
  in `State`; the behaviour of the HAL transport is a parameter (`Bus`).
* A C function with an output pointer takes the old pointee and returns the new one.
* `float` and `double` values are the rationals they denote; every `double` operation and
  every assignment to a `float` rounds to the nearest representable value, ties to even
  (`toDouble`, `toFloat`).
-/

namespace Bms

/-! ## `Inc/MCP342X.h`: types -/

/-- Status of function (`Status`, header lines 14-19). -/
inductive Status where
  | MCP_SUCCESS
  | MCP_ERROR_I2C_READ
  | MCP_ERROR_I2C_WRITE
  | MCP_ERROR
  deriving DecidableEq, Repr

/-- Conversion mode setting (`ConversionMode`, header lines 24-27). -/
inductive ConversionMode where
  | CONTINUOUS
  | ONE_SHOT
  deriving DecidableEq, Repr

/-- Data ready status (`DataStatus`, header lines 32-35). -/
inductive DataStatus where
  | DATA_NOT_UPDATED
  | DATA_UPDATED
  deriving DecidableEq, Repr

/-- Measurement trigger command (`MeasurementTrigger`, header lines 40-43).
`TRIGGER` is the first enumerator. -/
inductive MeasurementTrigger where
  | TRIGGER
  | NONE
  deriving DecidableEq, Repr

/-- Sample rate and resolution setting (`SampleSetting`, header lines 48-52). -/
inductive SampleSetting where
  | SAMPLE_240HZ_12BIT
  | SAMPLE_60HZ_14BIT
  | SAMPLE_15HZ_16BIT
  deriving DecidableEq, Repr

/-- ADC channel selection (`AdcChannel`, header lines 57-62). -/
inductive AdcChannel where
  | ADC_CH1
  | ADC_CH2
  | ADC_CH3
  | ADC_CH4
  deriving DecidableEq, Repr

/-- Programmable Gain Amplifier setting (`PgaSetting`, header lines 67-72). -/
inductive PgaSetting where
  | PGA_1X
  | PGA_2X
  | PGA_4X
  | PGA_8X
  deriving DecidableEq, Repr

open Status ConversionMode DataStatus MeasurementTrigger SampleSetting AdcChannel PgaSetting

/-- Numeric value of a `ConversionMode` enumerator. -/
def ConversionMode.toNat : ConversionMode → Nat
  | CONTINUOUS => 0
  | ONE_SHOT => 1

/-- Numeric value of a `DataStatus` enumerator. -/
def DataStatus.toNat : DataStatus → Nat
  | DATA_NOT_UPDATED => 0
  | DATA_UPDATED => 1

/-- Numeric value of a `MeasurementTrigger` enumerator. -/
def MeasurementTrigger.toNat : MeasurementTrigger → Nat
  | TRIGGER => 0
  | NONE => 1

/-- Numeric value of a `SampleSetting` enumerator. -/
def SampleSetting.toNat : SampleSetting → Nat
  | SAMPLE_240HZ_12BIT => 0
  | SAMPLE_60HZ_14BIT => 1
  | SAMPLE_15HZ_16BIT => 2

/-- Numeric value of an `AdcChannel` enumerator (`ADC_CH1 = 0`, ..., `ADC_CH4 = 3`). -/
def AdcChannel.toNat : AdcChannel → Nat
  | ADC_CH1 => 0
  | ADC_CH2 => 1
  | ADC_CH3 => 2
  | ADC_CH4 => 3

/-- Numeric value of a `PgaSetting` enumerator. -/
def PgaSetting.toNat : PgaSetting → Nat
  | PGA_1X => 0
  | PGA_2X => 1
  | PGA_4X => 2
  | PGA_8X => 3

/-- ADC result (`Data`, header lines 77-80); `value` is an `int16_t`. -/
structure Data where
  st : DataStatus
  value : Int
  deriving DecidableEq, Repr

/-- Configuration structure (`Config`, header lines 82-89). -/
structure Config where
  measurementTrigger : MeasurementTrigger
  dataStatus : DataStatus
  conversionMode : ConversionMode
  sampleSetting : SampleSetting
  adcChannel : AdcChannel
  pgaSetting : PgaSetting
  deriving DecidableEq, Repr

/-! ## Machine integers -/

/-- Conversion to `uint8_t`. -/
def u8 (n : Nat) : Nat := n % 2 ^ 8

/-- Conversion of a non-negative `int` to `int16_t` (wrap-around modulo 2^16, as on the target). -/
def toInt16 (n : Nat) : Int :=
  if n % 2 ^ 16 < 2 ^ 15 then ((n % 2 ^ 16 : Nat) : Int) else ((n % 2 ^ 16 : Nat) : Int) - 2 ^ 16

/-! ## Binary floating point -/

/-- Nearest integer to `x`; when `x` lies halfway between two integers, the even one. -/
def roundHalfEven (x : ℚ) : ℤ :=
  if x - ⌊x⌋ < 1 / 2 then ⌊x⌋
  else if 1 / 2 < x - ⌊x⌋ then ⌊x⌋ + 1
  else if ⌊x⌋ % 2 = 0 then ⌊x⌋
  else ⌊x⌋ + 1

/-- The number with `p` significant binary digits nearest to `x`, ties to even (the IEEE 754
default rounding, which the target uses). With `e` chosen so that
`2^(p-1) ≤ |x| / 2^e < 2^p`, the result is the nearest integer to `x / 2^e` times `2^e`.
The exponent range of the format is not modelled: on a sample in the `int16_t` range every
value the converters compute is zero or has a magnitude between `2^-16` and `2^26`, far
from the overflow and underflow thresholds of `float` and `double`. -/
def roundToPrecision (p : ℕ) (x : ℚ) : ℚ :=
  if x = 0 then 0
  else
    let e : ℤ := Int.log 2 |x| - ((p : ℤ) - 1)
    (roundHalfEven (x / 2 ^ e) : ℚ) * 2 ^ e

/-- Rounding to `double` (IEEE 754 binary64, 53 significant bits). -/
def toDouble (x : ℚ) : ℚ := roundToPrecision 53 x

/-- Rounding to `float` (IEEE 754 binary32, 24 significant bits). -/
def toFloat (x : ℚ) : ℚ := roundToPrecision 24 x

/-! ## The HAL transport -/

/-- Return type of the HAL I2C calls. The HAL header is not part of this repository; the
driver only compares the result with `HAL_OK`. -/
inductive HAL_StatusTypeDef where
  | HAL_OK
  | HAL_ERROR
  | HAL_BUSY
  | HAL_TIMEOUT
  deriving DecidableEq, Repr

open HAL_StatusTypeDef

/-- Behaviour of the bus: what the `k`-th call of `HAL_I2C_Master_Receive` returns and
leaves in the three-byte buffer, and what the `k`-th call of `HAL_I2C_Master_Transmit`
returns (calls are counted from `0`). -/
structure Bus where
  receive : Nat → HAL_StatusTypeDef × (Nat × Nat × Nat)
  transmit : Nat → HAL_StatusTypeDef

/-- Driver state: the file-scope `currentConfig` together with the bus traffic so far
(`rxCalls` counts the receive calls, `txLog` lists the bytes handed to transmit, oldest
first). -/
structure State where
  currentConfig : Config
  rxCalls : Nat
  txLog : List Nat
  deriving DecidableEq, Repr

/-- Value of a zero-initialised `Config`: every field is the enumerator of value `0`. -/
def zeroConfig : Config :=
  { measurementTrigger := TRIGGER
    dataStatus := DATA_NOT_UPDATED
    conversionMode := CONTINUOUS
    sampleSetting := SAMPLE_240HZ_12BIT
    adcChannel := ADC_CH1
    pgaSetting := PGA_1X }

/-- State at program start: `static Config currentConfig;` is zero-initialised and nothing
has been sent or received. -/
def initialState : State :=
  { currentConfig := zeroConfig, rxCalls := 0, txLog := [] }

/-! ## `Src/MCP342X.c`: functions -/

/-- `decodeConfigurationRegister` (lines 54-108). Each `if`/`else` chain of the source
assigns one field of `*config` in every branch; it is written here as one assignment of
that field whose right-hand side is the chain. -/
def decodeConfigurationRegister (config : Config) (regVal : Nat) : Config :=
  -- Decodes Ready Bit (~RDY), Bit 7
  let tmp := u8 ((0x80 &&& regVal) >>> 7)
  let config := { config with
    dataStatus := if tmp = 0x00 then DATA_UPDATED else DATA_NOT_UPDATED }
  -- Decodes Channel Selection Bits, Bit 6-5
  let tmp := u8 ((0x60 &&& regVal) >>> 5)
  let config := { config with
    adcChannel :=
      if tmp = 0x00 then ADC_CH1
      else if tmp = 0x01 then ADC_CH2
      else if tmp = 0x02 then ADC_CH3
      else ADC_CH4 }
  -- Decodes Conversion Mode Bit, Bit 4
  let tmp := u8 ((0x10 &&& regVal) >>> 4)
  let config := { config with
    conversionMode := if tmp = 0x01 then CONTINUOUS else ONE_SHOT }
  -- Decodes Sample Rate Selection Bit
  let tmp := u8 ((0x0C &&& regVal) >>> 2)
  let config := { config with
    sampleSetting :=
      if tmp = 0x00 then SAMPLE_240HZ_12BIT
      else if tmp = 0x01 then SAMPLE_60HZ_14BIT
      else SAMPLE_15HZ_16BIT }
  -- Decodes PGA Gain Selection Bits
  let tmp := u8 (0x03 &&& regVal)
  let config := { config with
    pgaSetting :=
      if tmp = 0x00 then PGA_1X
      else if tmp = 0x01 then PGA_2X
      else if tmp = 0x02 then PGA_4X
      else PGA_8X }
  config

/-- `readData` (lines 34-52): one receive of `LEN_DATA_REGISTER = 3` bytes. Returns the
status, the new `*val`, the new `*config` and the new state. -/
def readData (bus : Bus) (val : Int) (config : Config) (s : State) :
    Status × Int × Config × State :=
  let r := bus.receive s.rxCalls
  let buf := r.2
  let s := { s with rxCalls := s.rxCalls + 1 }
  if r.1 ≠ HAL_OK then
    (MCP_ERROR_I2C_READ, val, config, s)
  else
    -- Decodes configuration register data.
    let config := decodeConfigurationRegister config (u8 buf.2.2)
    -- Converts AD value
    let val := toInt16 ((u8 buf.1 <<< 8) ||| u8 buf.2.1)
    (MCP_SUCCESS, val, config, s)

/-- The register value computed by `setConfig` (lines 209-254) before it is transmitted. -/
def setConfigVal (config : Config) : Nat :=
  let val := 0
  -- Measurement trigger
  let val :=
    if config.measurementTrigger = TRIGGER then u8 (val ||| 0x80) else u8 (val ||| 0x00)
  -- Channel Selection
  let val :=
    if config.adcChannel = ADC_CH1 then u8 (val ||| 0x00)
    else if config.adcChannel = ADC_CH2 then u8 (val ||| 0x20)
    else if config.adcChannel = ADC_CH3 then u8 (val ||| 0x40)
    else u8 (val ||| 0x60)
  -- Conversion Mode
  let val :=
    if config.conversionMode = CONTINUOUS then u8 (val ||| 0x10)
    else if config.conversionMode = ONE_SHOT then u8 (val ||| 0x00)
    else val
  -- Sample Rate
  let val :=
    if config.sampleSetting = SAMPLE_240HZ_12BIT then u8 (val ||| 0x00)
    else if config.sampleSetting = SAMPLE_60HZ_14BIT then u8 (val ||| 0x04)
    else u8 (val ||| 0x08)
  -- PGA Gain Selection
  let val :=
    if config.pgaSetting = PGA_1X then u8 (val ||| 0x00)
    else if config.pgaSetting = PGA_2X then u8 (val ||| 0x01)
    else if config.pgaSetting = PGA_4X then u8 (val ||| 0x02)
    else u8 (val ||| 0x03)
  val

/-- `setConfig` (lines 208-263): computes the register value and hands that one byte to
`HAL_I2C_Master_Transmit`; a transmit result other than `HAL_OK` is reported with the
constant written on line 260. The size argument `I2C_MEMADD_SIZE_8BIT` is a constant of
the HAL (not of this repository) with value `1`: one byte is sent per call. -/
def setConfig (bus : Bus) (config : Config) (s : State) : Status × State :=
  let val := setConfigVal config
  let status := bus.transmit s.txLog.length
  let s := { s with txLog := s.txLog ++ [val] }
  if status ≠ HAL_OK then
    (MCP_ERROR_I2C_READ, s)
  else
    (MCP_SUCCESS, s)

/-- `MCP342X` (lines 16-32), the initialisation routine. The bus handle, the device
address and the timeouts select no behaviour of the driver and are left out. -/
def MCP342X (bus : Bus) (s : State) : Status × State :=
  let val : Int := 0
  -- Reads the current configuration.
  let r := readData bus val s.currentConfig s
  let status := r.1
  let s := { r.2.2.2 with currentConfig := r.2.2.1 }
  if status ≠ MCP_SUCCESS then
    (status, s)
  else
    let s := { s with currentConfig := { s.currentConfig with measurementTrigger := NONE } }
    (status, s)

/-- `setChannel` (lines 111-114). -/
def setChannel (bus : Bus) (ch : AdcChannel) (s : State) : Status × State :=
  let s := { s with currentConfig := { s.currentConfig with adcChannel := ch } }
  setConfig bus s.currentConfig s

/-- `getChannel` (lines 116-118). -/
def getChannel (s : State) : AdcChannel :=
  s.currentConfig.adcChannel

/-- `setConversionMode` (lines 120-123). -/
def setConversionMode (bus : Bus) (mode : ConversionMode) (s : State) : Status × State :=
  let s := { s with currentConfig := { s.currentConfig with conversionMode := mode } }
  setConfig bus s.currentConfig s

/-- `getConversionMode` (lines 125-127). -/
def getConversionMode (s : State) : ConversionMode :=
  s.currentConfig.conversionMode

/-- `setSampleSetting` (lines 129-132). -/
def setSampleSetting (bus : Bus) (st : SampleSetting) (s : State) : Status × State :=
  let s := { s with currentConfig := { s.currentConfig with sampleSetting := st } }
  setConfig bus s.currentConfig s

/-- `getSampleSetting` (lines 134-136). -/
def getSampleSetting (s : State) : SampleSetting :=
  s.currentConfig.sampleSetting

/-- `setPgaSetting` (lines 138-141). -/
def setPgaSetting (bus : Bus) (g : PgaSetting) (s : State) : Status × State :=
  let s := { s with currentConfig := { s.currentConfig with pgaSetting := g } }
  setConfig bus s.currentConfig s

/-- `getPgaSetting` (lines 143-145). -/
def getPgaSetting (s : State) : PgaSetting :=
  s.currentConfig.pgaSetting

/-- `getData` (lines 147-160): `pt` is the `Data` of the caller before the call, the
second component of the result is that `Data` after it. -/
def getData (bus : Bus) (pt : Data) (s : State) : Status × Data × State :=
  let val : Int := 0
  let r := readData bus val s.currentConfig s
  let status := r.1
  let val := r.2.1
  let s := { r.2.2.2 with currentConfig := r.2.2.1 }
  if status ≠ MCP_SUCCESS then
    (status, pt, s)
  else
    let pt := { pt with st := s.currentConfig.dataStatus }
    let pt := { pt with value := val }
    (MCP_SUCCESS, pt, s)

/-- `convertDataToVoltage` (lines 162-168). `data.value/32767.0` converts the sample to
`double` and divides in `double`; the assignment to `float voltage` rounds to `float`.
In the next two statements `voltage` is promoted to `double` (exactly), the operation is
done in `double` and the assignment rounds to `float` again. -/
def convertDataToVoltage (data : Data) : ℚ :=
  let voltage : ℚ := toFloat (toDouble (toDouble (data.value : ℚ) / toDouble 32767.0))
  let voltage : ℚ := toFloat (toDouble (voltage * toDouble 2.048))
  let voltage : ℚ := toFloat (toDouble (voltage / toDouble 0.3197))
  voltage

/-- `convertDataToDischargeCurrent` (lines 170-177). -/
def convertDataToDischargeCurrent (data : Data) : ℚ :=
  let dchgcurrent : ℚ := toFloat (toDouble (toDouble (data.value : ℚ) * toDouble 1000.0))
  let dchgcurrent : ℚ := toFloat (toDouble (dchgcurrent / toDouble 32767.0))
  let dchgcurrent : ℚ := toFloat (toDouble (dchgcurrent * toDouble 2.048))
  let dchgcurrent : ℚ := toFloat (toDouble (dchgcurrent / toDouble 0.2)) -- shunt value
  dchgcurrent

/-- `convertDataToChargeCurrent` (lines 179-186). -/
def convertDataToChargeCurrent (data : Data) : ℚ :=
  let chgcurrent : ℚ := toFloat (toDouble (toDouble (data.value : ℚ) * toDouble 1000.0))
  let chgcurrent : ℚ := toFloat (toDouble (chgcurrent / toDouble 32767.0))
  let chgcurrent : ℚ := toFloat (toDouble (chgcurrent * toDouble 2.048))
  let chgcurrent : ℚ := toFloat (toDouble (chgcurrent / toDouble 0.2)) -- shunt value
  chgcurrent

/-- `convertDataToTemp` (lines 188-193). -/
def convertDataToTemp (data : Data) : ℚ :=
  let temp : ℚ := toFloat (toDouble (toDouble (data.value : ℚ) / toDouble 32767.0))
  let temp : ℚ := toFloat (toDouble (temp * toDouble 2.048))
  temp

/-- `trigger` (lines 195-203). -/
def trigger (bus : Bus) (s : State) : Status × State :=
  let s := { s with currentConfig := { s.currentConfig with measurementTrigger := TRIGGER } }
  let r := setConfig bus s.currentConfig s
  let status := r.1
  let s := r.2
  let s := { s with currentConfig := { s.currentConfig with measurementTrigger := NONE } }
  (status, s)

/-! ## Sequences of public operations -/

/-- One call of a public operation of the driver. -/
inductive Op where
  | MCP342X
  | getData
  | setChannel (ch : AdcChannel)
  | setConversionMode (mode : ConversionMode)
  | setSampleSetting (st : SampleSetting)
  | setPgaSetting (g : PgaSetting)
  | trigger
  deriving DecidableEq, Repr

/-- State after one operation has returned (the status and any output are dropped; the
`Data` passed to `getData` is irrelevant for the state). -/
def Op.step (bus : Bus) (s : State) : Op → State
  | Op.MCP342X => (Bms.MCP342X bus s).2
  | Op.getData => (Bms.getData bus { st := DATA_NOT_UPDATED, value := 0 } s).2.2
  | Op.setChannel ch => (Bms.setChannel bus ch s).2
  | Op.setConversionMode mode => (Bms.setConversionMode bus mode s).2
  | Op.setSampleSetting st => (Bms.setSampleSetting bus st s).2
  | Op.setPgaSetting g => (Bms.setPgaSetting bus g s).2
  | Op.trigger => (Bms.trigger bus s).2

/-- State after a sequence of operations, run from left to right. -/
def runOps (bus : Bus) (s : State) (ops : List Op) : State :=
  ops.foldl (Op.step bus) s

/-! ## Concrete inputs used by the witnesses -/

/-- A configuration with no trigger pending: channel 3, one-shot, 15 Hz / 16 bit, gain 4x. -/
def exampleConfig : Config :=
  { measurementTrigger := NONE
    dataStatus := DATA_NOT_UPDATED
    conversionMode := ONE_SHOT
    sampleSetting := SAMPLE_15HZ_16BIT
    adcChannel := ADC_CH3
    pgaSetting := PGA_4X }

/-- A bus on which every receive and every transmit fails. -/
def failingBus : Bus :=
  { receive := fun _ => (HAL_ERROR, (0, 0, 0)), transmit := fun _ => HAL_ERROR }

/-- A bus on which every transmit succeeds and every receive delivers `[0x01, 0x00, 0x00]`. -/
def workingBus : Bus :=
  { receive := fun _ => (HAL_OK, (0x01, 0x00, 0x00)), transmit := fun _ => HAL_OK }

/-- A bus on which every receive delivers `[0x7F, 0xFF, 0x00]` (data word `0x7FFF`, status
byte `0x00`) and every transmit fails. -/
def fullScaleBus : Bus :=
  { receive := fun _ => (HAL_OK, (0x7F, 0xFF, 0x00)), transmit := fun _ => HAL_ERROR }

/-- A bus on which every transmit succeeds and every receive delivers `[0xFF, 0x38, 0x5A]`
(status byte: data updated, channel 3, continuous, 15 Hz / 16 bit, gain 4x). -/
def echoBus : Bus :=
  { receive := fun _ => (HAL_OK, (0xFF, 0x38, 0x5A)), transmit := fun _ => HAL_OK }

/-- A bus on which every receive delivers `[0x80, 0x00, 0x04]` (data word `0x8000`, status
byte `0x04`: 60 Hz / 14 bit) and every transmit succeeds. -/
def negFullScaleBus : Bus :=
  { receive := fun _ => (HAL_OK, (0x80, 0x00, 0x04)), transmit := fun _ => HAL_OK }

/-! ## Register codec: helper lemmas -/

/-- Decoding touches every field except `measurementTrigger`, and the decoded fields do
not depend on the configuration decoded into. -/
theorem decode_frame (config : Config) (regVal : Nat) :
    decodeConfigurationRegister config regVal =
      { decodeConfigurationRegister zeroConfig regVal with
        measurementTrigger := config.measurementTrigger } := rfl

/-- Decoding leaves `measurementTrigger` as it was. -/
theorem decode_measurementTrigger (config : Config) (regVal : Nat) :
    (decodeConfigurationRegister config regVal).measurementTrigger =
      config.measurementTrigger := rfl

/-- Decoding the register value computed from `c`. -/
theorem decode_setConfigVal_zero (c : Config) :
    decodeConfigurationRegister zeroConfig (setConfigVal c) =
      { measurementTrigger := TRIGGER
        dataStatus := if c.measurementTrigger = TRIGGER then DATA_NOT_UPDATED else DATA_UPDATED
        conversionMode := c.conversionMode
        sampleSetting := c.sampleSetting
        adcChannel := c.adcChannel
        pgaSetting := c.pgaSetting } := by
  rcases c with ⟨t, ds, m, ss, ch, g⟩
  cases t <;> cases ds <;> cases m <;> cases ss <;> cases ch <;> cases g <;> decide

/-- The register value as a sum of its bit fields. -/
theorem setConfigVal_eq (c : Config) :
    setConfigVal c =
      0x80 * (if c.measurementTrigger = TRIGGER then 1 else 0) + 0x20 * c.adcChannel.toNat
        + 0x10 * (if c.conversionMode = CONTINUOUS then 1 else 0)
        + 0x04 * c.sampleSetting.toNat + c.pgaSetting.toNat := by
  rcases c with ⟨t, ds, m, ss, ch, g⟩
  cases t <;> cases ds <;> cases m <;> cases ss <;> cases ch <;> cases g <;> decide

set_option maxRecDepth 100000 in
/-- Every field decoded from a byte, in terms of the bit fields of the byte. -/
theorem decode_zero_bits : ∀ b, b < 256 →
    decodeConfigurationRegister zeroConfig b =
      { measurementTrigger := TRIGGER
        dataStatus := if b / 128 % 2 = 0 then DATA_UPDATED else DATA_NOT_UPDATED
        conversionMode := if b / 16 % 2 = 1 then CONTINUOUS else ONE_SHOT
        sampleSetting :=
          if b / 4 % 4 = 0 then SAMPLE_240HZ_12BIT
          else if b / 4 % 4 = 1 then SAMPLE_60HZ_14BIT
          else SAMPLE_15HZ_16BIT
        adcChannel :=
          if b / 32 % 4 = 0 then ADC_CH1
          else if b / 32 % 4 = 1 then ADC_CH2
          else if b / 32 % 4 = 2 then ADC_CH3
          else ADC_CH4
        pgaSetting :=
          if b % 4 = 0 then PGA_1X
          else if b % 4 = 1 then PGA_2X
          else if b % 4 = 2 then PGA_4X
          else PGA_8X } := by
  decide

/-- State left by `setConfig`: the register value is appended to the transmit log and
nothing else changes, whatever the transport reports. -/
theorem setConfig_state (bus : Bus) (config : Config) (s : State) :
    (setConfig bus config s).2 = { s with txLog := s.txLog ++ [setConfigVal config] } := by
  unfold setConfig
  by_cases h : bus.transmit s.txLog.length = HAL_OK <;> simp [h]

/-- Status returned by `setConfig`. -/
theorem setConfig_status (bus : Bus) (config : Config) (s : State) :
    (setConfig bus config s).1 =
      if bus.transmit s.txLog.length = HAL_OK then MCP_SUCCESS else MCP_ERROR_I2C_READ := by
  unfold setConfig
  by_cases h : bus.transmit s.txLog.length = HAL_OK <;> simp [h]

/-! ## Device session: helper lemmas -/

/-- For bytes `hi` and `lo`, the word `(hi << 8) | lo` is `hi * 256 + lo`. -/
theorem shift_or_eq (hi lo : Nat) (h : lo < 256) : (hi <<< 8) ||| lo = hi * 256 + lo := by
  have h8 : lo < 2 ^ 8 := h
  rw [Nat.shiftLeft_eq, Nat.mul_comm hi (2 ^ 8), ← Nat.mul_add_lt_is_or h8 hi]

/-- A value below `2^8` is unchanged by conversion to `uint8_t`. -/
theorem u8_of_lt (n : Nat) (h : n < 256) : u8 n = n := by
  unfold u8
  exact Nat.mod_eq_of_lt h

/-- Result of `readData` when the receive reports `HAL_OK`. -/
theorem readData_ok (bus : Bus) (val : Int) (config : Config) (s : State) (b0 b1 b2 : Nat)
    (hrx : bus.receive s.rxCalls = (HAL_OK, (b0, b1, b2))) :
    readData bus val config s =
      (MCP_SUCCESS, toInt16 ((u8 b0 <<< 8) ||| u8 b1),
        decodeConfigurationRegister config (u8 b2), { s with rxCalls := s.rxCalls + 1 }) := by
  simp [readData, hrx]

/-- Result of `readData` when the receive reports anything but `HAL_OK`. -/
theorem readData_fail (bus : Bus) (val : Int) (config : Config) (s : State)
    (hrx : (bus.receive s.rxCalls).1 ≠ HAL_OK) :
    readData bus val config s =
      (MCP_ERROR_I2C_READ, val, config, { s with rxCalls := s.rxCalls + 1 }) := by
  simp [readData, hrx]

/-- Result of `getData` when the receive reports `HAL_OK`. -/
theorem getData_ok (bus : Bus) (pt : Data) (s : State) (b0 b1 b2 : Nat)
    (hrx : bus.receive s.rxCalls = (HAL_OK, (b0, b1, b2))) :
    getData bus pt s =
      (MCP_SUCCESS,
        { st := (decodeConfigurationRegister s.currentConfig (u8 b2)).dataStatus
          value := toInt16 ((u8 b0 <<< 8) ||| u8 b1) },
        { s with
          currentConfig := decodeConfigurationRegister s.currentConfig (u8 b2)
          rxCalls := s.rxCalls + 1 }) := by
  simp [getData, readData_ok bus 0 s.currentConfig s b0 b1 b2 hrx]

/-- Result of `getData` when the receive reports anything but `HAL_OK`. -/
theorem getData_fail (bus : Bus) (pt : Data) (s : State)
    (hrx : (bus.receive s.rxCalls).1 ≠ HAL_OK) :
    getData bus pt s = (MCP_ERROR_I2C_READ, pt, { s with rxCalls := s.rxCalls + 1 }) := by
  simp [getData, readData_fail bus 0 s.currentConfig s hrx]

/-- Result of `MCP342X` when the receive reports `HAL_OK`. -/
theorem MCP342X_ok (bus : Bus) (s : State) (b0 b1 b2 : Nat)
    (hrx : bus.receive s.rxCalls = (HAL_OK, (b0, b1, b2))) :
    MCP342X bus s =
      (MCP_SUCCESS,
        { s with
          currentConfig :=
            { decodeConfigurationRegister s.currentConfig (u8 b2) with
              measurementTrigger := NONE }
          rxCalls := s.rxCalls + 1 }) := by
  simp [MCP342X, readData_ok bus 0 s.currentConfig s b0 b1 b2 hrx]

/-- Result of `MCP342X` when the receive reports anything but `HAL_OK`. -/
theorem MCP342X_fail (bus : Bus) (s : State) (hrx : (bus.receive s.rxCalls).1 ≠ HAL_OK) :
    MCP342X bus s = (MCP_ERROR_I2C_READ, { s with rxCalls := s.rxCalls + 1 }) := by
  simp [MCP342X, readData_fail bus 0 s.currentConfig s hrx]

/-- The shadow trigger after `getData` is the one before it. -/
theorem getData_measurementTrigger (bus : Bus) (pt : Data) (s : State) :
    (getData bus pt s).2.2.currentConfig.measurementTrigger =
      s.currentConfig.measurementTrigger := by
  by_cases h : (bus.receive s.rxCalls).1 = HAL_OK
  · have hrx : bus.receive s.rxCalls =
        (HAL_OK, ((bus.receive s.rxCalls).2.1, (bus.receive s.rxCalls).2.2.1,
          (bus.receive s.rxCalls).2.2.2)) := by
      rw [← h]
    rw [getData_ok bus pt s _ _ _ hrx]
    rfl
  · rw [getData_fail bus pt s h]

/-- Every operation keeps a shadow trigger that is `NONE`. -/
theorem step_keeps_NONE (bus : Bus) (s : State) (op : Op)
    (h : s.currentConfig.measurementTrigger = NONE) :
    (op.step bus s).currentConfig.measurementTrigger = NONE := by
  cases op with
  | MCP342X =>
    by_cases hrx : (bus.receive s.rxCalls).1 = HAL_OK
    · have hrx2 : bus.receive s.rxCalls =
          (HAL_OK, ((bus.receive s.rxCalls).2.1, (bus.receive s.rxCalls).2.2.1,
            (bus.receive s.rxCalls).2.2.2)) := by
        rw [← hrx]
      simp only [Op.step]
      rw [MCP342X_ok bus s _ _ _ hrx2]
    · simp only [Op.step]
      rw [MCP342X_fail bus s hrx]
      exact h
  | getData =>
    simp only [Op.step]
    rw [getData_measurementTrigger]
    exact h
  | setChannel ch => simp [Op.step, setChannel, setConfig_state, h]
  | setConversionMode mode => simp [Op.step, setConversionMode, setConfig_state, h]
  | setSampleSetting st => simp [Op.step, setSampleSetting, setConfig_state, h]
  | setPgaSetting g => simp [Op.step, setPgaSetting, setConfig_state, h]
  | trigger => simp [Op.step, trigger, setConfig_state]

/-- A shadow trigger that is `NONE` stays `NONE` along any sequence of operations. -/
theorem runOps_keeps_NONE (bus : Bus) (ops : List Op) (s : State)
    (h : s.currentConfig.measurementTrigger = NONE) :
    (runOps bus s ops).currentConfig.measurementTrigger = NONE := by
  induction ops generalizing s with
  | nil => exact h
  | cons op rest ih =>
    simp only [runOps, List.foldl_cons]
    exact ih _ (step_keeps_NONE bus s op h)

/-! ## Register codec: claims -/

/-- C1. Round trip: for every configuration `c` with `measurementTrigger = NONE`, decoding
the byte that `setConfig` computes from `c` (into any configuration `d`) gives the
`adcChannel`, `conversionMode`, `sampleSetting` and `pgaSetting` of `c`; decoded into `c`
itself it gives `c` with `dataStatus = DATA_UPDATED`. -/
theorem C1_decode_setConfigVal_roundtrip (c d : Config) (h : c.measurementTrigger = NONE) :
    (decodeConfigurationRegister d (setConfigVal c)).adcChannel = c.adcChannel ∧
    (decodeConfigurationRegister d (setConfigVal c)).conversionMode = c.conversionMode ∧
    (decodeConfigurationRegister d (setConfigVal c)).sampleSetting = c.sampleSetting ∧
    (decodeConfigurationRegister d (setConfigVal c)).pgaSetting = c.pgaSetting ∧
    decodeConfigurationRegister c (setConfigVal c) = { c with dataStatus := DATA_UPDATED } := by
  rw [decode_frame d, decode_frame c, decode_setConfigVal_zero]
  simp [h]

/-- C1, at `exampleConfig` decoded into the zero configuration. -/
theorem C1_decode_setConfigVal_roundtrip_witness :
    exampleConfig.measurementTrigger = NONE ∧
    ((decodeConfigurationRegister zeroConfig (setConfigVal exampleConfig)).adcChannel
        = exampleConfig.adcChannel ∧
      (decodeConfigurationRegister zeroConfig (setConfigVal exampleConfig)).conversionMode
        = exampleConfig.conversionMode ∧
      (decodeConfigurationRegister zeroConfig (setConfigVal exampleConfig)).sampleSetting
        = exampleConfig.sampleSetting ∧
      (decodeConfigurationRegister zeroConfig (setConfigVal exampleConfig)).pgaSetting
        = exampleConfig.pgaSetting ∧
      decodeConfigurationRegister exampleConfig (setConfigVal exampleConfig)
        = { exampleConfig with dataStatus := DATA_UPDATED }) :=
  ⟨by decide, C1_decode_setConfigVal_roundtrip exampleConfig zeroConfig (by decide)⟩

/-- C2. The byte computed by `setConfig` determines, and is determined by, the five fields
`measurementTrigger`, `adcChannel`, `conversionMode`, `sampleSetting`, `pgaSetting`: two
configurations get the same byte exactly when they agree on all five (so configurations
differing in one of them get different bytes, and `dataStatus` plays no part). -/
theorem C2_setConfigVal_injective (c₁ c₂ : Config) :
    setConfigVal c₁ = setConfigVal c₂ ↔
      (c₁.measurementTrigger = c₂.measurementTrigger ∧ c₁.adcChannel = c₂.adcChannel ∧
        c₁.conversionMode = c₂.conversionMode ∧ c₁.sampleSetting = c₂.sampleSetting ∧
        c₁.pgaSetting = c₂.pgaSetting) := by
  constructor
  · intro h
    have h₁ := decode_setConfigVal_zero c₁
    rw [h, decode_setConfigVal_zero c₂] at h₁
    simp only [Config.mk.injEq, true_and] at h₁
    obtain ⟨ht, hm, hs, hc, hg⟩ := h₁
    refine ⟨?_, hc.symm, hm.symm, hs.symm, hg.symm⟩
    cases h1 : c₁.measurementTrigger <;> cases h2 : c₂.measurementTrigger <;>
      simp [h1, h2] at ht ⊢
  · rintro ⟨ht, hc, hm, hs, hg⟩
    rw [setConfigVal_eq, setConfigVal_eq, ht, hc, hm, hs, hg]

/-- C3. The byte `setConfig` hands to the transport is
`0x80*t + 0x20*ch + 0x10*m + 0x04*r + g` with `t = 1` iff the trigger is `TRIGGER`, `ch`
the channel index (at most 3), `m = 1` iff the mode is `CONTINUOUS`, `r` the sample-setting
index (at most 2) and `g` the gain index (at most 3); bits 3-2 of the byte are never `3`. -/
theorem C3_setConfig_byte_layout (bus : Bus) (config : Config) (s : State) :
    (setConfig bus config s).2.txLog =
      s.txLog ++
        [0x80 * (if config.measurementTrigger = TRIGGER then 1 else 0)
          + 0x20 * config.adcChannel.toNat
          + 0x10 * (if config.conversionMode = CONTINUOUS then 1 else 0)
          + 0x04 * config.sampleSetting.toNat + config.pgaSetting.toNat] ∧
    config.adcChannel.toNat ≤ 3 ∧ config.sampleSetting.toNat ≤ 2 ∧
    config.pgaSetting.toNat ≤ 3 ∧
    (setConfigVal config >>> 2) &&& 0x03 ≠ 0x03 ∧ setConfigVal config / 4 % 4 ≠ 3 := by
  refine ⟨?_, ?_, ?_, ?_, ?_, ?_⟩
  · rw [setConfig_state, setConfigVal_eq]
  · cases config.adcChannel <;> decide
  · cases config.sampleSetting <;> decide
  · cases config.pgaSetting <;> decide
  · rcases config with ⟨t, ds, m, ss, ch, g⟩
    cases t <;> cases ds <;> cases m <;> cases ss <;> cases ch <;> cases g <;> decide
  · rcases config with ⟨t, ds, m, ss, ch, g⟩
    cases t <;> cases ds <;> cases m <;> cases ss <;> cases ch <;> cases g <;> decide

/-- C4. `decodeConfigurationRegister` is defined on every byte `b` and sets: `dataStatus`
to `DATA_UPDATED` iff bit 7 is `0`; `adcChannel` to channel (bits 6-5) + 1; `conversionMode`
to `CONTINUOUS` iff bit 4 is `1`; `sampleSetting` to 240 Hz / 12 bit, 60 Hz / 14 bit for
bits 3-2 equal to 0, 1 and to 15 Hz / 16 bit for 2 and for the reserved value 3;
`pgaSetting` to 1x/2x/4x/8x for bits 1-0 equal to 0/1/2/3. -/
theorem C4_decodeConfigurationRegister_fields (config : Config) (b : Nat) (hb : b < 256) :
    ((decodeConfigurationRegister config b).dataStatus = DATA_UPDATED ↔ b / 128 % 2 = 0) ∧
    ((decodeConfigurationRegister config b).dataStatus = DATA_NOT_UPDATED ↔ b / 128 % 2 = 1) ∧
    (b / 32 % 4 = 0 → (decodeConfigurationRegister config b).adcChannel = ADC_CH1) ∧
    (b / 32 % 4 = 1 → (decodeConfigurationRegister config b).adcChannel = ADC_CH2) ∧
    (b / 32 % 4 = 2 → (decodeConfigurationRegister config b).adcChannel = ADC_CH3) ∧
    (b / 32 % 4 = 3 → (decodeConfigurationRegister config b).adcChannel = ADC_CH4) ∧
    ((decodeConfigurationRegister config b).conversionMode = CONTINUOUS ↔ b / 16 % 2 = 1) ∧
    ((decodeConfigurationRegister config b).conversionMode = ONE_SHOT ↔ b / 16 % 2 = 0) ∧
    (b / 4 % 4 = 0 → (decodeConfigurationRegister config b).sampleSetting = SAMPLE_240HZ_12BIT) ∧
    (b / 4 % 4 = 1 → (decodeConfigurationRegister config b).sampleSetting = SAMPLE_60HZ_14BIT) ∧
    (b / 4 % 4 = 2 → (decodeConfigurationRegister config b).sampleSetting = SAMPLE_15HZ_16BIT) ∧
    (b / 4 % 4 = 3 → (decodeConfigurationRegister config b).sampleSetting = SAMPLE_15HZ_16BIT) ∧
    (b % 4 = 0 → (decodeConfigurationRegister config b).pgaSetting = PGA_1X) ∧
    (b % 4 = 1 → (decodeConfigurationRegister config b).pgaSetting = PGA_2X) ∧
    (b % 4 = 2 → (decodeConfigurationRegister config b).pgaSetting = PGA_4X) ∧
    (b % 4 = 3 → (decodeConfigurationRegister config b).pgaSetting = PGA_8X) := by
  rw [decode_frame config, decode_zero_bits b hb]
  refine ⟨?_, ?_, ?_, ?_, ?_, ?_, ?_, ?_, ?_, ?_, ?_, ?_, ?_, ?_, ?_, ?_⟩
  · by_cases h : b / 128 % 2 = 0 <;> simp [h]
  · by_cases h : b / 128 % 2 = 0
    · simp [h]
    · have : b / 128 % 2 = 1 := by omega
      simp [this]
  iterate 4
    intro h
    simp [h]
  · by_cases h : b / 16 % 2 = 1 <;> simp [h]
  · by_cases h : b / 16 % 2 = 1
    · simp [h]
    · have : b / 16 % 2 = 0 := by omega
      simp [this]
  all_goals
    intro h
    simp [h]

/-- C4, at the byte `0xFE` (bits 3-2 hold the reserved value 3). -/
theorem C4_decodeConfigurationRegister_fields_witness :
    (0xFE : Nat) < 256 ∧
    (decodeConfigurationRegister exampleConfig 0xFE).dataStatus = DATA_NOT_UPDATED ∧
    (decodeConfigurationRegister exampleConfig 0xFE).adcChannel = ADC_CH4 ∧
    (decodeConfigurationRegister exampleConfig 0xFE).conversionMode = CONTINUOUS ∧
    (decodeConfigurationRegister exampleConfig 0xFE).sampleSetting = SAMPLE_15HZ_16BIT ∧
    (decodeConfigurationRegister exampleConfig 0xFE).pgaSetting = PGA_4X := by
  have h := C4_decodeConfigurationRegister_fields exampleConfig 0xFE (by decide)
  exact ⟨by decide, h.2.1.2 (by decide), h.2.2.2.2.2.1 (by decide),
    h.2.2.2.2.2.2.1.2 (by decide), h.2.2.2.2.2.2.2.2.2.2.2.1 (by decide),
    h.2.2.2.2.2.2.2.2.2.2.2.2.2.2.1 (by decide)⟩

/-! ## Device session: claims -/

/-- C5. When the receive succeeds with bytes `[b0, b1, b2]`, `getData` returns
`MCP_SUCCESS`, `value` is the signed 16-bit reading of the big-endian word `b0*256 + b1`,
and `st` is `DATA_UPDATED` iff bit 7 of `b2` is `0`; for `[0x01, 0x00, 0x00]` the value is
`256` and the status `DATA_UPDATED`. -/
theorem C5_getData_value_and_status (bus : Bus) (pt : Data) (s : State) (b0 b1 b2 : Nat)
    (h0 : b0 < 256) (h1 : b1 < 256) (h2 : b2 < 256)
    (hrx : bus.receive s.rxCalls = (HAL_OK, (b0, b1, b2))) :
    (getData bus pt s).1 = MCP_SUCCESS ∧
    (getData bus pt s).2.1.value =
      (if b0 * 256 + b1 < 32768 then ((b0 * 256 + b1 : Nat) : Int)
        else ((b0 * 256 + b1 : Nat) : Int) - 65536) ∧
    ((getData bus pt s).2.1.st = DATA_UPDATED ↔ b2 / 128 % 2 = 0) ∧
    ((getData bus pt s).2.1.st = DATA_NOT_UPDATED ↔ b2 / 128 % 2 = 1) ∧
    (b0 = 0x01 → b1 = 0x00 → b2 = 0x00 →
      (getData bus pt s).2.1 = { st := DATA_UPDATED, value := 256 }) := by
  have hw : (b0 * 256 + b1) % 2 ^ 16 = b0 * 256 + b1 := Nat.mod_eq_of_lt (by norm_num; omega)
  have hval : toInt16 ((u8 b0 <<< 8) ||| u8 b1) =
      (if b0 * 256 + b1 < 32768 then ((b0 * 256 + b1 : Nat) : Int)
        else ((b0 * 256 + b1 : Nat) : Int) - 65536) := by
    rw [u8_of_lt b0 h0, u8_of_lt b1 h1, shift_or_eq b0 b1 h1]
    unfold toInt16
    rw [hw]
    norm_num
  rw [getData_ok bus pt s b0 b1 b2 hrx, u8_of_lt b2 h2, decode_frame, decode_zero_bits b2 h2]
  refine ⟨rfl, hval, ?_, ?_, ?_⟩
  · by_cases h : b2 / 128 % 2 = 0 <;> simp [h]
  · by_cases h : b2 / 128 % 2 = 0
    · simp [h]
    · have : b2 / 128 % 2 = 1 := by omega
      simp [this]
  · rintro rfl rfl rfl
    rw [hval]
    simp

/-- C5, on a bus that delivers `[0x01, 0x00, 0x00]`, from the initial state. -/
theorem C5_getData_value_and_status_witness :
    workingBus.receive initialState.rxCalls = (HAL_OK, (0x01, 0x00, 0x00)) ∧
    (getData workingBus { st := DATA_NOT_UPDATED, value := 7 } initialState).1 = MCP_SUCCESS ∧
    (getData workingBus { st := DATA_NOT_UPDATED, value := 7 } initialState).2.1 =
      { st := DATA_UPDATED, value := 256 } :=
  have h := C5_getData_value_and_status workingBus { st := DATA_NOT_UPDATED, value := 7 }
    initialState 0x01 0x00 0x00 (by decide) (by decide) (by decide) rfl
  ⟨rfl, h.1, h.2.2.2.2 rfl rfl rfl⟩

/-- C6. Whatever the shadow held before and whatever the transmit reports, after `trigger`
returns the shadow `measurementTrigger` is `NONE`. -/
theorem C6_trigger_resets_measurementTrigger (bus : Bus) (s : State) :
    (trigger bus s).2.currentConfig.measurementTrigger = NONE := by
  simp [trigger, setConfig_state]

/-- C7 as stated fails on the code. `TRIGGER` is the enumerator of value `0`, so the
zero-initialised shadow starts with `measurementTrigger = TRIGGER`; `getData` and the
setters never assign that field, and `MCP342X` assigns it only after a successful read
(line 29 comes after the early return of line 26). So after a first `getData`, a first
setter, or an `MCP342X` whose read failed, the operation has completed and the shadow
still holds `TRIGGER`; a setter called after a failed `MCP342X` even transmits a byte with
bit 7 set. -/
theorem C7_counterexample_TRIGGER_left_in_shadow :
    MeasurementTrigger.toNat TRIGGER = 0 ∧
    initialState.currentConfig.measurementTrigger = TRIGGER ∧
    (runOps workingBus initialState [Op.getData]).currentConfig.measurementTrigger = TRIGGER ∧
    (runOps workingBus initialState [Op.getData]).currentConfig.measurementTrigger ≠ NONE ∧
    (runOps workingBus initialState
      [Op.setPgaSetting PGA_2X]).currentConfig.measurementTrigger = TRIGGER ∧
    (MCP342X failingBus initialState).1 = MCP_ERROR_I2C_READ ∧
    (runOps failingBus initialState [Op.MCP342X]).currentConfig.measurementTrigger = TRIGGER ∧
    (runOps failingBus initialState [Op.MCP342X, Op.setChannel ADC_CH1]).txLog = [0x90] := by
  decide

/-- C7, amended. Once an `MCP342X` call has returned `MCP_SUCCESS`, or a `trigger` call has
returned (with any status), the shadow `measurementTrigger` is `NONE`, and it is `NONE`
after every later sequence of `MCP342X`, `getData`, setter and `trigger` calls, whatever
the transport reports. -/
theorem C7_measurementTrigger_NONE_once_initialized (bus : Bus) (s : State) (ops : List Op) :
    ((MCP342X bus s).1 = MCP_SUCCESS →
      (MCP342X bus s).2.currentConfig.measurementTrigger = NONE ∧
      (runOps bus (MCP342X bus s).2 ops).currentConfig.measurementTrigger = NONE) ∧
    (trigger bus s).2.currentConfig.measurementTrigger = NONE ∧
    (runOps bus (trigger bus s).2 ops).currentConfig.measurementTrigger = NONE := by
  have ht : (trigger bus s).2.currentConfig.measurementTrigger = NONE := by
    simp [trigger, setConfig_state]
  refine ⟨fun hinit => ?_, ht, runOps_keeps_NONE bus ops _ ht⟩
  have hm : (MCP342X bus s).2.currentConfig.measurementTrigger = NONE := by
    by_cases hrx : (bus.receive s.rxCalls).1 = HAL_OK
    · have hrx2 : bus.receive s.rxCalls =
          (HAL_OK, ((bus.receive s.rxCalls).2.1, (bus.receive s.rxCalls).2.2.1,
            (bus.receive s.rxCalls).2.2.2)) := by
        rw [← hrx]
      rw [MCP342X_ok bus s _ _ _ hrx2]
    · rw [MCP342X_fail bus s hrx] at hinit
      simp at hinit
  exact ⟨hm, runOps_keeps_NONE bus ops _ hm⟩

/-- C7 amended: after a successful `MCP342X` on a working bus, and after a `trigger` on a bus
where every later receive and transmit fails. -/
theorem C7_measurementTrigger_NONE_once_initialized_witness :
    (MCP342X workingBus initialState).1 = MCP_SUCCESS ∧
    ((MCP342X workingBus initialState).2.currentConfig.measurementTrigger = NONE ∧
      (runOps workingBus (MCP342X workingBus initialState).2
        [Op.setChannel ADC_CH2, Op.getData, Op.trigger, Op.setPgaSetting PGA_8X]
        ).currentConfig.measurementTrigger = NONE) ∧
    (trigger failingBus initialState).1 = MCP_ERROR_I2C_READ ∧
    (trigger failingBus initialState).2.currentConfig.measurementTrigger = NONE ∧
    (runOps failingBus (trigger failingBus initialState).2
      [Op.getData, Op.MCP342X, Op.setChannel ADC_CH2, Op.getData]
      ).currentConfig.measurementTrigger = NONE :=
  ⟨by decide,
    (C7_measurementTrigger_NONE_once_initialized workingBus initialState
      [Op.setChannel ADC_CH2, Op.getData, Op.trigger, Op.setPgaSetting PGA_8X]).1 (by decide),
    by decide,
    (C7_measurementTrigger_NONE_once_initialized failingBus initialState
      [Op.getData, Op.MCP342X, Op.setChannel ADC_CH2, Op.getData]).2⟩

/-- C8 (fails on the code). When the transmit fails, `setConfig` returns the read-error
status `MCP_ERROR_I2C_READ` (line 260), not `MCP_ERROR_I2C_WRITE`; the four setters and
`trigger` pass that status on. With a successful transmit they return `MCP_SUCCESS`. -/
theorem C8_write_failure_reported_as_read_error :
    (setChannel failingBus ADC_CH3 initialState).1 = MCP_ERROR_I2C_READ ∧
    (setConversionMode failingBus ONE_SHOT initialState).1 = MCP_ERROR_I2C_READ ∧
    (setSampleSetting failingBus SAMPLE_15HZ_16BIT initialState).1 = MCP_ERROR_I2C_READ ∧
    (setPgaSetting failingBus PGA_4X initialState).1 = MCP_ERROR_I2C_READ ∧
    (trigger failingBus initialState).1 = MCP_ERROR_I2C_READ ∧
    (setChannel failingBus ADC_CH3 initialState).1 ≠ MCP_ERROR_I2C_WRITE ∧
    (setChannel workingBus ADC_CH3 initialState).1 = MCP_SUCCESS ∧
    (trigger workingBus initialState).1 = MCP_SUCCESS := by
  decide

/-- C9. Right after a setter is called with `v`, the matching getter returns `v`, whether
the transmit succeeded or failed: the shadow field is not rolled back. -/
theorem C9_getter_after_setter (bus : Bus) (s : State) (ch : AdcChannel)
    (mode : ConversionMode) (st : SampleSetting) (g : PgaSetting) :
    getChannel (setChannel bus ch s).2 = ch ∧
    getConversionMode (setConversionMode bus mode s).2 = mode ∧
    getSampleSetting (setSampleSetting bus st s).2 = st ∧
    getPgaSetting (setPgaSetting bus g s).2 = g ∧
    getChannel (setChannel workingBus ADC_CH3 s).2 = ADC_CH3 ∧
    getPgaSetting (setPgaSetting failingBus PGA_4X s).2 = PGA_4X ∧
    (setPgaSetting failingBus PGA_4X s).1 ≠ MCP_SUCCESS := by
  refine ⟨?_, ?_, ?_, ?_, ?_, ?_, ?_⟩
  · simp [setChannel, setConfig_state, getChannel]
  · simp [setConversionMode, setConfig_state, getConversionMode]
  · simp [setSampleSetting, setConfig_state, getSampleSetting]
  · simp [setPgaSetting, setConfig_state, getPgaSetting]
  · simp [setChannel, setConfig_state, getChannel]
  · simp [setPgaSetting, setConfig_state, getPgaSetting]
  · simp [setPgaSetting, setConfig_status, failingBus]

/-- C10. When the receive fails, `getData` returns `MCP_ERROR_I2C_READ`, the `Data`
of the caller keeps its `st` and `value`, and every field of the shadow configuration is
unchanged. -/
theorem C10_getData_read_failure (bus : Bus) (pt : Data) (s : State)
    (hrx : (bus.receive s.rxCalls).1 ≠ HAL_OK) :
    (getData bus pt s).1 = MCP_ERROR_I2C_READ ∧
    (getData bus pt s).2.1 = pt ∧
    (getData bus pt s).2.2.currentConfig = s.currentConfig := by
  rw [getData_fail bus pt s hrx]
  exact ⟨rfl, rfl, rfl⟩

/-- C10, on a bus whose receive fails, with a shadow holding `exampleConfig`. -/
theorem C10_getData_read_failure_witness :
    (failingBus.receive 0).1 ≠ HAL_OK ∧
    (getData failingBus { st := DATA_UPDATED, value := -5 }
      { currentConfig := exampleConfig, rxCalls := 0, txLog := [] }).1 = MCP_ERROR_I2C_READ ∧
    (getData failingBus { st := DATA_UPDATED, value := -5 }
      { currentConfig := exampleConfig, rxCalls := 0, txLog := [] }).2.1 =
        { st := DATA_UPDATED, value := -5 } ∧
    (getData failingBus { st := DATA_UPDATED, value := -5 }
      { currentConfig := exampleConfig, rxCalls := 0, txLog := [] }).2.2.currentConfig =
        exampleConfig :=
  ⟨by decide, C10_getData_read_failure failingBus { st := DATA_UPDATED, value := -5 }
    { currentConfig := exampleConfig, rxCalls := 0, txLog := [] } (by decide)⟩

/-! ## Second group of helper lemmas -/

/-- With no trigger pending the register value has bit 7 clear. -/
theorem setConfigVal_lt_of_NONE (c : Config) (h : c.measurementTrigger = NONE) :
    setConfigVal c < 128 := by
  rcases c with ⟨t, ds, m, ss, ch, g⟩
  simp only at h
  subst h
  cases ds <;> cases m <;> cases ss <;> cases ch <;> cases g <;> decide

/-- Setting the trigger adds `0x80` to the register value and changes nothing else. -/
theorem setConfigVal_TRIGGER (c : Config) :
    setConfigVal { c with measurementTrigger := TRIGGER } =
      0x80 + setConfigVal { c with measurementTrigger := NONE } := by
  rcases c with ⟨t, ds, m, ss, ch, g⟩
  cases t <;> cases ds <;> cases m <;> cases ss <;> cases ch <;> cases g <;> decide

/-- With the trigger set the register value has bit 7 set. -/
theorem setConfigVal_TRIGGER_bit7 (c : Config) :
    setConfigVal { c with measurementTrigger := TRIGGER } / 128 % 2 = 1 := by
  rcases c with ⟨t, ds, m, ss, ch, g⟩
  cases t <;> cases ds <;> cases m <;> cases ss <;> cases ch <;> cases g <;> decide

set_option maxRecDepth 100000 in
/-- Register value computed from a decoded byte, with no trigger pending. -/
theorem reencode_zero : ∀ b, b < 256 →
    setConfigVal { decodeConfigurationRegister zeroConfig b with measurementTrigger := NONE } =
      if b / 4 % 4 = 3 then (b &&& 0x73) ||| 0x08 else b &&& 0x7F := by
  decide

/-- The value stored by `readData` is an `int16_t`. -/
theorem toInt16_range (n : Nat) : -32768 ≤ toInt16 n ∧ toInt16 n ≤ 32767 := by
  unfold toInt16
  have h : n % 2 ^ 16 < 2 ^ 16 := Nat.mod_lt _ (by norm_num)
  split_ifs with h1 <;> constructor <;> norm_num at * <;> omega

/-! ## Claims on reads and initialisation -/

/-- C11 (fails on the code). `readData` stores the whole 16-bit word whatever sample
setting the status byte announces: for the received bytes `[0x7F, 0xFF, 0x00]` the read
succeeds, the shadow `sampleSetting` after the read is `SAMPLE_240HZ_12BIT` and the value is
`32767`, outside `-2048..2047`; for `[0x80, 0x00, 0x04]` the setting is `SAMPLE_60HZ_14BIT`
and the value `-32768`, outside `-8192..8191`. -/
theorem C11_value_exceeds_announced_width :
    (getData fullScaleBus { st := DATA_NOT_UPDATED, value := 0 } initialState).1 = MCP_SUCCESS ∧
    (getData fullScaleBus { st := DATA_NOT_UPDATED, value := 0 }
      initialState).2.2.currentConfig.sampleSetting = SAMPLE_240HZ_12BIT ∧
    (getData fullScaleBus { st := DATA_NOT_UPDATED, value := 0 }
      initialState).2.1.value = 32767 ∧
    ¬ (getData fullScaleBus { st := DATA_NOT_UPDATED, value := 0 }
      initialState).2.1.value ≤ 2047 ∧
    (getData negFullScaleBus { st := DATA_NOT_UPDATED, value := 0 } initialState).1
      = MCP_SUCCESS ∧
    (getData negFullScaleBus { st := DATA_NOT_UPDATED, value := 0 }
      initialState).2.2.currentConfig.sampleSetting = SAMPLE_60HZ_14BIT ∧
    (getData negFullScaleBus { st := DATA_NOT_UPDATED, value := 0 }
      initialState).2.1.value = -32768 ∧
    ¬ -8192 ≤ (getData negFullScaleBus { st := DATA_NOT_UPDATED, value := 0 }
      initialState).2.1.value := by
  decide

/-- C12. On a successful read of `[b0, b1, b2]`, `getData` replaces the shadow
`dataStatus`, `adcChannel`, `conversionMode`, `sampleSetting` and `pgaSetting` by the
values decoded from `b2` (the same whatever configuration `d` they are decoded into, so
nothing of the old shadow survives in them), keeps the shadow `measurementTrigger`, and
returns as `st` the new shadow `dataStatus`. -/
theorem C12_getData_overwrites_shadow (bus : Bus) (pt : Data) (s : State) (d : Config)
    (b0 b1 b2 : Nat) (h2 : b2 < 256)
    (hrx : bus.receive s.rxCalls = (HAL_OK, (b0, b1, b2))) :
    (getData bus pt s).2.2.currentConfig.dataStatus
      = (decodeConfigurationRegister d b2).dataStatus ∧
    (getData bus pt s).2.2.currentConfig.adcChannel
      = (decodeConfigurationRegister d b2).adcChannel ∧
    (getData bus pt s).2.2.currentConfig.conversionMode
      = (decodeConfigurationRegister d b2).conversionMode ∧
    (getData bus pt s).2.2.currentConfig.sampleSetting
      = (decodeConfigurationRegister d b2).sampleSetting ∧
    (getData bus pt s).2.2.currentConfig.pgaSetting
      = (decodeConfigurationRegister d b2).pgaSetting ∧
    (getData bus pt s).2.2.currentConfig.measurementTrigger
      = s.currentConfig.measurementTrigger ∧
    (getData bus pt s).2.1.st = (getData bus pt s).2.2.currentConfig.dataStatus := by
  rw [getData_ok bus pt s b0 b1 b2 hrx, u8_of_lt b2 h2]
  exact ⟨rfl, rfl, rfl, rfl, rfl, rfl, rfl⟩

/-- C12, after a `setPgaSetting(PGA_8X)` whose push failed: the read of status byte `0x00`
puts `PGA_1X` back into the shadow. -/
theorem C12_getData_overwrites_shadow_witness :
    getPgaSetting (setPgaSetting fullScaleBus PGA_8X initialState).2 = PGA_8X ∧
    (setPgaSetting fullScaleBus PGA_8X initialState).1 ≠ MCP_SUCCESS ∧
    fullScaleBus.receive (setPgaSetting fullScaleBus PGA_8X initialState).2.rxCalls
      = (HAL_OK, (0x7F, 0xFF, 0x00)) ∧
    (getData fullScaleBus { st := DATA_NOT_UPDATED, value := 0 }
      (setPgaSetting fullScaleBus PGA_8X initialState).2).2.2.currentConfig.pgaSetting
        = PGA_1X ∧
    (getData fullScaleBus { st := DATA_NOT_UPDATED, value := 0 }
      (setPgaSetting fullScaleBus PGA_8X initialState).2).2.2.currentConfig.measurementTrigger
        = TRIGGER ∧
    (getData fullScaleBus { st := DATA_NOT_UPDATED, value := 0 }
      (setPgaSetting fullScaleBus PGA_8X initialState).2).2.1.st = DATA_UPDATED :=
  have h := C12_getData_overwrites_shadow fullScaleBus { st := DATA_NOT_UPDATED, value := 0 }
    (setPgaSetting fullScaleBus PGA_8X initialState).2 exampleConfig 0x7F 0xFF 0x00
    (by decide) rfl
  ⟨by decide, by decide, rfl, h.2.2.2.2.1.trans (by decide), h.2.2.2.2.2.1.trans (by decide),
    h.2.2.2.2.2.2.trans (h.1.trans (by decide))⟩

/-- C13. `MCP342X` returns `MCP_SUCCESS` exactly when its receive reports `HAL_OK`; the
shadow then holds the data status, channel, mode, sample setting and gain decoded from the
third received byte, with `measurementTrigger = NONE`. When the receive fails it returns
`MCP_ERROR_I2C_READ`. -/
theorem C13_MCP342X_result (bus : Bus) (s : State) (d : Config) :
    ((MCP342X bus s).1 = MCP_SUCCESS ↔ (bus.receive s.rxCalls).1 = HAL_OK) ∧
    ((bus.receive s.rxCalls).1 = HAL_OK →
      (MCP342X bus s).2.currentConfig =
        { decodeConfigurationRegister d (u8 (bus.receive s.rxCalls).2.2.2) with
          measurementTrigger := NONE }) ∧
    ((bus.receive s.rxCalls).1 ≠ HAL_OK → (MCP342X bus s).1 = MCP_ERROR_I2C_READ) := by
  by_cases hrx : (bus.receive s.rxCalls).1 = HAL_OK
  · have hrx2 : bus.receive s.rxCalls =
        (HAL_OK, ((bus.receive s.rxCalls).2.1, (bus.receive s.rxCalls).2.2.1,
          (bus.receive s.rxCalls).2.2.2)) := by
      rw [← hrx]
    rw [MCP342X_ok bus s _ _ _ hrx2]
    exact ⟨⟨fun _ => hrx, fun _ => rfl⟩, fun _ => rfl, fun h => absurd hrx h⟩
  · rw [MCP342X_fail bus s hrx]
    refine ⟨⟨fun h => ?_, fun h => absurd h hrx⟩, fun h => absurd h hrx, fun _ => rfl⟩
    simp at h

/-- C13, on a bus whose status byte is `0x5A`, and on a failing bus. -/
theorem C13_MCP342X_result_witness :
    (MCP342X echoBus initialState).1 = MCP_SUCCESS ∧
    (MCP342X echoBus initialState).2.currentConfig =
      { measurementTrigger := NONE
        dataStatus := DATA_UPDATED
        conversionMode := CONTINUOUS
        sampleSetting := SAMPLE_15HZ_16BIT
        adcChannel := ADC_CH3
        pgaSetting := PGA_4X } ∧
    (MCP342X failingBus initialState).1 = MCP_ERROR_I2C_READ :=
  have h := C13_MCP342X_result echoBus initialState zeroConfig
  have hf := C13_MCP342X_result failingBus initialState zeroConfig
  ⟨h.1.2 rfl, (h.2.1 rfl).trans (by decide), hf.2.2 (by decide)⟩

/-! ## Claims on setters and trigger -/

/-- C15. Each setter changes only its own field of the shadow, for every transport
outcome: the shadow after `setChannel ch` is the old shadow with `adcChannel := ch`, and
likewise for `setConversionMode`, `setSampleSetting` and `setPgaSetting`. -/
theorem C15_setter_frame (bus : Bus) (s : State) (ch : AdcChannel) (mode : ConversionMode)
    (st : SampleSetting) (g : PgaSetting) :
    (setChannel bus ch s).2.currentConfig = { s.currentConfig with adcChannel := ch } ∧
    (setConversionMode bus mode s).2.currentConfig
      = { s.currentConfig with conversionMode := mode } ∧
    (setSampleSetting bus st s).2.currentConfig
      = { s.currentConfig with sampleSetting := st } ∧
    (setPgaSetting bus g s).2.currentConfig = { s.currentConfig with pgaSetting := g } := by
  refine ⟨?_, ?_, ?_, ?_⟩
  · simp [setChannel, setConfig_state]
  · simp [setConversionMode, setConfig_state]
  · simp [setSampleSetting, setConfig_state]
  · simp [setPgaSetting, setConfig_state]

/-- C16. Every call of a setter or of `trigger` makes exactly one transmit and no receive.
The byte transmitted is the register value of the shadow at push time: for a setter the
shadow with the new field value, for `trigger` the shadow with
`measurementTrigger := TRIGGER`, which is `0x80` plus the bit fields of the current
channel, mode, sample setting and gain, whatever the conversion mode. -/
theorem C16_one_write_per_call (bus : Bus) (s : State) (ch : AdcChannel)
    (mode : ConversionMode) (st : SampleSetting) (g : PgaSetting) :
    ((setChannel bus ch s).2.txLog
        = s.txLog ++ [setConfigVal { s.currentConfig with adcChannel := ch }] ∧
      (setChannel bus ch s).2.rxCalls = s.rxCalls) ∧
    ((setConversionMode bus mode s).2.txLog
        = s.txLog ++ [setConfigVal { s.currentConfig with conversionMode := mode }] ∧
      (setConversionMode bus mode s).2.rxCalls = s.rxCalls) ∧
    ((setSampleSetting bus st s).2.txLog
        = s.txLog ++ [setConfigVal { s.currentConfig with sampleSetting := st }] ∧
      (setSampleSetting bus st s).2.rxCalls = s.rxCalls) ∧
    ((setPgaSetting bus g s).2.txLog
        = s.txLog ++ [setConfigVal { s.currentConfig with pgaSetting := g }] ∧
      (setPgaSetting bus g s).2.rxCalls = s.rxCalls) ∧
    ((trigger bus s).2.txLog
        = s.txLog ++ [setConfigVal { s.currentConfig with measurementTrigger := TRIGGER }] ∧
      (trigger bus s).2.rxCalls = s.rxCalls ∧
      (trigger bus s).2.txLog.length = s.txLog.length + 1) ∧
    setConfigVal { s.currentConfig with measurementTrigger := TRIGGER } / 128 % 2 = 1 ∧
    setConfigVal { s.currentConfig with measurementTrigger := TRIGGER } =
      0x80 + (0x20 * s.currentConfig.adcChannel.toNat
        + 0x10 * (if s.currentConfig.conversionMode = CONTINUOUS then 1 else 0)
        + 0x04 * s.currentConfig.sampleSetting.toNat + s.currentConfig.pgaSetting.toNat) := by
  refine ⟨?_, ?_, ?_, ?_, ?_, setConfigVal_TRIGGER_bit7 s.currentConfig, ?_⟩
  · simp [setChannel, setConfig_state]
  · simp [setConversionMode, setConfig_state]
  · simp [setSampleSetting, setConfig_state]
  · simp [setPgaSetting, setConfig_state]
  · simp [trigger, setConfig_state]
  · rw [setConfigVal_TRIGGER, setConfigVal_eq]
    simp

/-- C18. After an `MCP342X` call that returned `MCP_SUCCESS`, in every state reached by a
later sequence of operations (whatever the transport reports) the byte a setter
transmits has bit 7 clear, while the byte `trigger` transmits has bit 7 set. -/
theorem C18_only_trigger_sets_bit7 (bus : Bus) (s : State) (ops : List Op)
    (ch : AdcChannel) (mode : ConversionMode) (st : SampleSetting) (g : PgaSetting)
    (hinit : (MCP342X bus s).1 = MCP_SUCCESS) :
    (∃ b, (setChannel bus ch (runOps bus (MCP342X bus s).2 ops)).2.txLog
        = (runOps bus (MCP342X bus s).2 ops).txLog ++ [b] ∧ b / 128 % 2 = 0) ∧
    (∃ b, (setConversionMode bus mode (runOps bus (MCP342X bus s).2 ops)).2.txLog
        = (runOps bus (MCP342X bus s).2 ops).txLog ++ [b] ∧ b / 128 % 2 = 0) ∧
    (∃ b, (setSampleSetting bus st (runOps bus (MCP342X bus s).2 ops)).2.txLog
        = (runOps bus (MCP342X bus s).2 ops).txLog ++ [b] ∧ b / 128 % 2 = 0) ∧
    (∃ b, (setPgaSetting bus g (runOps bus (MCP342X bus s).2 ops)).2.txLog
        = (runOps bus (MCP342X bus s).2 ops).txLog ++ [b] ∧ b / 128 % 2 = 0) ∧
    (∃ b, (trigger bus (runOps bus (MCP342X bus s).2 ops)).2.txLog
        = (runOps bus (MCP342X bus s).2 ops).txLog ++ [b] ∧ b / 128 % 2 = 1) := by
  have hm : (MCP342X bus s).2.currentConfig.measurementTrigger = NONE := by
    by_cases hrx : (bus.receive s.rxCalls).1 = HAL_OK
    · have hrx2 : bus.receive s.rxCalls =
          (HAL_OK, ((bus.receive s.rxCalls).2.1, (bus.receive s.rxCalls).2.2.1,
            (bus.receive s.rxCalls).2.2.2)) := by
        rw [← hrx]
      rw [MCP342X_ok bus s _ _ _ hrx2]
    · rw [MCP342X_fail bus s hrx] at hinit
      simp at hinit
  have hN := runOps_keeps_NONE bus ops _ hm
  generalize runOps bus (MCP342X bus s).2 ops = s' at hN
  have hclear : ∀ c : Config, c.measurementTrigger = NONE → setConfigVal c / 128 % 2 = 0 := by
    intro c hc
    have := setConfigVal_lt_of_NONE c hc
    omega
  refine ⟨⟨setConfigVal { s'.currentConfig with adcChannel := ch }, ?_, hclear _ hN⟩,
    ⟨setConfigVal { s'.currentConfig with conversionMode := mode }, ?_, hclear _ hN⟩,
    ⟨setConfigVal { s'.currentConfig with sampleSetting := st }, ?_, hclear _ hN⟩,
    ⟨setConfigVal { s'.currentConfig with pgaSetting := g }, ?_, hclear _ hN⟩,
    ⟨setConfigVal { s'.currentConfig with measurementTrigger := TRIGGER }, ?_,
      setConfigVal_TRIGGER_bit7 s'.currentConfig⟩⟩
  · simp only [setChannel, setConfig_state]
  · simp only [setConversionMode, setConfig_state]
  · simp only [setSampleSetting, setConfig_state]
  · simp only [setPgaSetting, setConfig_state]
  · simp only [trigger, setConfig_state]

/-- C18, after a successful `MCP342X` on `echoBus` followed by a setter, a read, a trigger
and another setter. -/
theorem C18_only_trigger_sets_bit7_witness :
    (MCP342X echoBus initialState).1 = MCP_SUCCESS ∧
    ((∃ b, (setChannel echoBus ADC_CH4 (runOps echoBus (MCP342X echoBus initialState).2
        [Op.setPgaSetting PGA_8X, Op.getData, Op.trigger, Op.setChannel ADC_CH2])).2.txLog
        = (runOps echoBus (MCP342X echoBus initialState).2
          [Op.setPgaSetting PGA_8X, Op.getData, Op.trigger, Op.setChannel ADC_CH2]).txLog
            ++ [b] ∧ b / 128 % 2 = 0) ∧
    (∃ b, (setConversionMode echoBus ONE_SHOT (runOps echoBus (MCP342X echoBus initialState).2
        [Op.setPgaSetting PGA_8X, Op.getData, Op.trigger, Op.setChannel ADC_CH2])).2.txLog
        = (runOps echoBus (MCP342X echoBus initialState).2
          [Op.setPgaSetting PGA_8X, Op.getData, Op.trigger, Op.setChannel ADC_CH2]).txLog
            ++ [b] ∧ b / 128 % 2 = 0) ∧
    (∃ b, (setSampleSetting echoBus SAMPLE_60HZ_14BIT
        (runOps echoBus (MCP342X echoBus initialState).2
        [Op.setPgaSetting PGA_8X, Op.getData, Op.trigger, Op.setChannel ADC_CH2])).2.txLog
        = (runOps echoBus (MCP342X echoBus initialState).2
          [Op.setPgaSetting PGA_8X, Op.getData, Op.trigger, Op.setChannel ADC_CH2]).txLog
            ++ [b] ∧ b / 128 % 2 = 0) ∧
    (∃ b, (setPgaSetting echoBus PGA_2X (runOps echoBus (MCP342X echoBus initialState).2
        [Op.setPgaSetting PGA_8X, Op.getData, Op.trigger, Op.setChannel ADC_CH2])).2.txLog
        = (runOps echoBus (MCP342X echoBus initialState).2
          [Op.setPgaSetting PGA_8X, Op.getData, Op.trigger, Op.setChannel ADC_CH2]).txLog
            ++ [b] ∧ b / 128 % 2 = 0) ∧
    (∃ b, (trigger echoBus (runOps echoBus (MCP342X echoBus initialState).2
        [Op.setPgaSetting PGA_8X, Op.getData, Op.trigger, Op.setChannel ADC_CH2])).2.txLog
        = (runOps echoBus (MCP342X echoBus initialState).2
          [Op.setPgaSetting PGA_8X, Op.getData, Op.trigger, Op.setChannel ADC_CH2]).txLog
            ++ [b] ∧ b / 128 % 2 = 1)) :=
  ⟨by decide, C18_only_trigger_sets_bit7 echoBus initialState
    [Op.setPgaSetting PGA_8X, Op.getData, Op.trigger, Op.setChannel ADC_CH2]
    ADC_CH4 ONE_SHOT SAMPLE_60HZ_14BIT PGA_2X (by decide)⟩

/-- C19. Re-encoding a decoded status byte `b` with `measurementTrigger = NONE`: when bits
3-2 of `b` are not `3` the byte `setConfig` computes is `b & 0x7F`, and when they are `3`
it is `(b & 0x73) | 0x08`. -/
theorem C19_reencode_decoded_byte (d : Config) (b : Nat) (hb : b < 256) :
    (b / 4 % 4 ≠ 3 →
      setConfigVal { decodeConfigurationRegister d b with measurementTrigger := NONE }
        = b &&& 0x7F) ∧
    (b / 4 % 4 = 3 →
      setConfigVal { decodeConfigurationRegister d b with measurementTrigger := NONE }
        = (b &&& 0x73) ||| 0x08) := by
  have h : setConfigVal { decodeConfigurationRegister d b with measurementTrigger := NONE } =
      setConfigVal
        { decodeConfigurationRegister zeroConfig b with measurementTrigger := NONE } := rfl
  rw [h, reencode_zero b hb]
  constructor
  · intro h3
    rw [if_neg h3]
  · intro h3
    rw [if_pos h3]

/-- C19, at the bytes `0xDA` (bits 3-2 are `2`) and `0xFE` (bits 3-2 are `3`). -/
theorem C19_reencode_decoded_byte_witness :
    (0xDA : Nat) < 256 ∧ (0xFE : Nat) < 256 ∧
    setConfigVal { decodeConfigurationRegister exampleConfig 0xDA with
      measurementTrigger := NONE } = 0x5A ∧
    setConfigVal { decodeConfigurationRegister exampleConfig 0xFE with
      measurementTrigger := NONE } = 0x7A :=
  ⟨by decide, by decide,
    ((C19_reencode_decoded_byte exampleConfig 0xDA (by decide)).1 (by decide)).trans
      (by decide),
    ((C19_reencode_decoded_byte exampleConfig 0xFE (by decide)).2 (by decide)).trans
      (by decide)⟩

/-! ## Floating point: helper lemmas -/

/-- The nearest integer is at most one half away. -/
theorem roundHalfEven_error (x : ℚ) : |(roundHalfEven x : ℚ) - x| ≤ 1 / 2 := by
  have h1 : (⌊x⌋ : ℚ) ≤ x := Int.floor_le x
  have h2 : x < (⌊x⌋ : ℚ) + 1 := Int.lt_floor_add_one x
  unfold roundHalfEven
  rw [abs_le]
  split_ifs with ha hb hc
  · constructor <;> linarith
  · push_cast
    constructor <;> linarith
  · constructor <;> linarith
  · push_cast
    constructor <;> linarith

/-- An integer less than one half away from `x` is the nearest integer to `x`. -/
theorem roundHalfEven_eq (x : ℚ) (m : ℤ) (h : |x - m| < 1 / 2) : roundHalfEven x = m := by
  rw [abs_lt] at h
  obtain ⟨hl, hu⟩ := h
  unfold roundHalfEven
  by_cases hm : (m : ℚ) ≤ x
  · have hf : ⌊x⌋ = m := by
      rw [Int.floor_eq_iff]
      constructor <;> linarith
    rw [hf, if_pos (by linarith)]
  · have hf : ⌊x⌋ = m - 1 := by
      rw [Int.floor_eq_iff]
      push_cast
      constructor <;> linarith
    rw [hf]
    push_cast
    rw [if_neg (by linarith), if_pos (by linarith)]
    ring

/-- Rounding to `p` digits changes a number by at most `2^-p` of its magnitude. -/
theorem roundToPrecision_error (p : ℕ) (x : ℚ) :
    |roundToPrecision p x - x| ≤ |x| / 2 ^ p := by
  unfold roundToPrecision
  by_cases hx : x = 0
  · simp [hx]
  · rw [if_neg hx]
    have hpos : 0 < |x| := abs_pos.mpr hx
    have hlog : (2 : ℚ) ^ Int.log 2 |x| ≤ |x| := by
      have := Int.zpow_log_le_self (b := 2) (r := |x|) (by norm_num) hpos
      simpa using this
    simp only []
    set e : ℤ := Int.log 2 |x| - ((p : ℤ) - 1) with he
    have h2e : (0 : ℚ) < 2 ^ e := by positivity
    have herr := roundHalfEven_error (x / 2 ^ e)
    have hrw : (roundHalfEven (x / 2 ^ e) : ℚ) * 2 ^ e - x
        = ((roundHalfEven (x / 2 ^ e) : ℚ) - x / 2 ^ e) * 2 ^ e := by
      field_simp
    rw [hrw, abs_mul, abs_of_pos h2e]
    have hL : (2 : ℚ) ^ Int.log 2 |x| = 2 ^ e * 2 ^ (p : ℤ) / 2 := by
      have : Int.log 2 |x| = e + (p : ℤ) - 1 := by omega
      rw [this, zpow_sub₀ (by norm_num), zpow_add₀ (by norm_num)]
      simp
    have hp : (0 : ℚ) < 2 ^ p := by positivity
    rw [le_div_iff₀ hp]
    calc |(roundHalfEven (x / 2 ^ e) : ℚ) - x / 2 ^ e| * 2 ^ e * 2 ^ p
        ≤ 1 / 2 * 2 ^ e * 2 ^ p := by gcongr
      _ = 2 ^ e * 2 ^ (p : ℤ) / 2 := by
        rw [zpow_natCast]
        ring
      _ = (2 : ℚ) ^ Int.log 2 |x| := hL.symm
      _ ≤ |x| := hlog

/-- Rounding to `p` digits, computed: if `2^(p-1) ≤ |x| / 2^e < 2^p` and the integer `m` is
less than one half away from `x / 2^e`, the result is `m * 2^e`. -/
theorem roundToPrecision_eq (p : ℕ) (x : ℚ) (m e : ℤ)
    (hlo : (2 : ℚ) ^ ((p : ℤ) - 1 + e) ≤ |x|) (hhi : |x| < (2 : ℚ) ^ ((p : ℤ) + e))
    (hm : |x / 2 ^ e - m| < 1 / 2) : roundToPrecision p x = m * 2 ^ e := by
  have hpos : 0 < |x| := lt_of_lt_of_le (by positivity) hlo
  have hx : x ≠ 0 := abs_pos.mp hpos
  have h1 : (p : ℤ) - 1 + e ≤ Int.log 2 |x| := by
    rw [← Int.zpow_le_iff_le_log (by norm_num) hpos]
    simpa using hlo
  have h2 : Int.log 2 |x| < (p : ℤ) + e := by
    rw [← Int.lt_zpow_iff_log_lt (by norm_num) hpos]
    simpa using hhi
  have he : Int.log 2 |x| - ((p : ℤ) - 1) = e := by omega
  unfold roundToPrecision
  rw [if_neg hx]
  simp only []
  rw [he, roundHalfEven_eq _ m hm]

/-- Rounding to `p` digits keeps a relative error bound, enlarged by `2^-p`. -/
theorem relErr_round (p : ℕ) (a b δ δ' : ℚ) (h : |a - b| ≤ δ * |b|)
    (hδ' : δ + (1 + δ) / 2 ^ p ≤ δ') : |roundToPrecision p a - b| ≤ δ' * |b| := by
  have hr := roundToPrecision_error p a
  have hp : (0 : ℚ) < 2 ^ p := by positivity
  have ha : |a| ≤ (1 + δ) * |b| := by
    have : |a| ≤ |a - b| + |b| := by
      have := abs_add (a - b) b
      simpa using this
    linarith
  have hb : 0 ≤ |b| := abs_nonneg b
  have h1 : |a| / 2 ^ p ≤ (1 + δ) / 2 ^ p * |b| := by
    rw [div_mul_eq_mul_div]
    exact div_le_div_of_nonneg_right ha hp.le
  have h2 : |roundToPrecision p a - b| ≤ |roundToPrecision p a - a| + |a - b| := by
    have := abs_add (roundToPrecision p a - a) (a - b)
    simpa using this
  calc |roundToPrecision p a - b| ≤ (1 + δ) / 2 ^ p * |b| + δ * |b| := by linarith
    _ = (δ + (1 + δ) / 2 ^ p) * |b| := by ring
    _ ≤ δ' * |b| := by gcongr

/-- One C assignment `float x = <double expression>`: rounding to `double`, then to
`float`. -/
theorem relErr_assign (a b δ δ' : ℚ) (h : |a - b| ≤ δ * |b|)
    (hδ' : δ + (1 + δ) / 2 ^ 53 + (1 + (δ + (1 + δ) / 2 ^ 53)) / 2 ^ 24 ≤ δ') :
    |toFloat (toDouble a) - b| ≤ δ' * |b| := by
  unfold toFloat toDouble
  have h1 := relErr_round 53 a b δ (δ + (1 + δ) / 2 ^ 53) h le_rfl
  exact relErr_round 24 _ b _ δ' h1 hδ'

/-- A value rounded to `double`. -/
theorem relErr_const (c c' : ℚ) (hc : c = c') : |toDouble c - c'| ≤ 1 / 2 ^ 53 * |c'| := by
  subst hc
  have := roundToPrecision_error 53 c
  unfold toDouble
  calc |roundToPrecision 53 c - c| ≤ |c| / 2 ^ 53 := this
    _ = 1 / 2 ^ 53 * |c| := by ring

/-- Relative error of a product. -/
theorem relErr_mul (a₁ b₁ a₂ b₂ δ₁ δ₂ δ' : ℚ) (h₁ : |a₁ - b₁| ≤ δ₁ * |b₁|)
    (h₂ : |a₂ - b₂| ≤ δ₂ * |b₂|) (hδ₁ : 0 ≤ δ₁)
    (hδ' : δ₁ + δ₂ + δ₁ * δ₂ ≤ δ') : |a₁ * a₂ - b₁ * b₂| ≤ δ' * |b₁ * b₂| := by
  have e : a₁ * a₂ - b₁ * b₂ = (a₁ - b₁) * b₂ + b₁ * (a₂ - b₂) + (a₁ - b₁) * (a₂ - b₂) := by
    ring
  have hb₁ : 0 ≤ |b₁| := abs_nonneg b₁
  have hb₂ : 0 ≤ |b₂| := abs_nonneg b₂
  have t1 : |(a₁ - b₁) * b₂| ≤ δ₁ * |b₁| * |b₂| := by
    rw [abs_mul]
    gcongr
  have t2 : |b₁ * (a₂ - b₂)| ≤ |b₁| * (δ₂ * |b₂|) := by
    rw [abs_mul]
    gcongr
  have t3 : |(a₁ - b₁) * (a₂ - b₂)| ≤ δ₁ * |b₁| * (δ₂ * |b₂|) := by
    rw [abs_mul]
    gcongr
  have hsum : |a₁ * a₂ - b₁ * b₂| ≤
      |(a₁ - b₁) * b₂| + |b₁ * (a₂ - b₂)| + |(a₁ - b₁) * (a₂ - b₂)| := by
    rw [e]
    exact (abs_add _ _).trans (add_le_add_right (abs_add _ _) _)
  rw [abs_mul]
  calc |a₁ * a₂ - b₁ * b₂| ≤ δ₁ * |b₁| * |b₂| + |b₁| * (δ₂ * |b₂|) + δ₁ * |b₁| * (δ₂ * |b₂|) := by
        linarith
    _ = (δ₁ + δ₂ + δ₁ * δ₂) * (|b₁| * |b₂|) := by ring
    _ ≤ δ' * (|b₁| * |b₂|) := by gcongr

/-- Relative error of a quotient by a non-zero divisor. -/
theorem relErr_div (a₁ b₁ a₂ b₂ δ₁ δ₂ δ' : ℚ) (h₁ : |a₁ - b₁| ≤ δ₁ * |b₁|)
    (h₂ : |a₂ - b₂| ≤ δ₂ * |b₂|) (hb₂ : b₂ ≠ 0) (hδ₁ : 0 ≤ δ₁) (hδ₂ : 0 ≤ δ₂) (hlt : δ₂ < 1)
    (hδ' : δ₁ + δ₂ ≤ δ' * (1 - δ₂)) : |a₁ / a₂ - b₁ / b₂| ≤ δ' * |b₁ / b₂| := by
  have hb₁ : 0 ≤ |b₁| := abs_nonneg b₁
  have hb₂p : 0 < |b₂| := abs_pos.mpr hb₂
  have ha₂ : (1 - δ₂) * |b₂| ≤ |a₂| := by
    have : |b₂| ≤ |b₂ - a₂| + |a₂| := by
      have := abs_add (b₂ - a₂) a₂
      simpa using this
    rw [abs_sub_comm] at this
    linarith
  have ha₂p : 0 < |a₂| := lt_of_lt_of_le (mul_pos (by linarith) hb₂p) ha₂
  have ha₂0 : a₂ ≠ 0 := abs_pos.mp ha₂p
  have e : a₁ / a₂ - b₁ / b₂ = ((a₁ - b₁) * b₂ - b₁ * (a₂ - b₂)) / (a₂ * b₂) := by
    field_simp
    ring
  have t1 : |(a₁ - b₁) * b₂| ≤ δ₁ * |b₁| * |b₂| := by
    rw [abs_mul]
    gcongr
  have t2 : |b₁ * (a₂ - b₂)| ≤ |b₁| * (δ₂ * |b₂|) := by
    rw [abs_mul]
    gcongr
  have hnum : |(a₁ - b₁) * b₂ - b₁ * (a₂ - b₂)| ≤ (δ₁ + δ₂) * (|b₁| * |b₂|) := by
    have := abs_sub ((a₁ - b₁) * b₂) (b₁ * (a₂ - b₂))
    calc |(a₁ - b₁) * b₂ - b₁ * (a₂ - b₂)| ≤ |(a₁ - b₁) * b₂| + |b₁ * (a₂ - b₂)| := this
      _ ≤ δ₁ * |b₁| * |b₂| + |b₁| * (δ₂ * |b₂|) := by linarith
      _ = (δ₁ + δ₂) * (|b₁| * |b₂|) := by ring
  have hδ'0 : 0 ≤ δ' := by
    by_contra hneg
    push_neg at hneg
    have : δ' * (1 - δ₂) < 0 := mul_neg_of_neg_of_pos hneg (by linarith)
    linarith
  rw [e, abs_div, abs_mul, abs_div, div_le_iff₀ (mul_pos ha₂p hb₂p)]
  calc |(a₁ - b₁) * b₂ - b₁ * (a₂ - b₂)| ≤ (δ₁ + δ₂) * (|b₁| * |b₂|) := hnum
    _ ≤ δ' * (1 - δ₂) * (|b₁| * |b₂|) := by gcongr
    _ = δ' * (|b₁| / |b₂|) * ((1 - δ₂) * |b₂| * |b₂|) := by
        field_simp
        ring
    _ ≤ δ' * (|b₁| / |b₂|) * (|a₂| * |b₂|) := by gcongr

/-- The value `convertDataToVoltage` computes for the sample `-32768`, rounding by
rounding. -/
theorem convertDataToVoltage_min (st : DataStatus) :
    convertDataToVoltage { st := st, value := -32768 } = -6717389 / 1048576 := by
  have e1 : toDouble (((-32768 : ℤ) : ℚ) : ℚ) = (-32768) := by
    unfold toDouble
    rw [roundToPrecision_eq 53 _ (-4503599627370496) (-37)
      (by rw [abs_of_neg (by norm_num)]; norm_num)
      (by rw [abs_of_neg (by norm_num)]; norm_num)
      (by rw [abs_lt]; constructor <;> norm_num)]
    norm_num
  have e2 : toDouble (32767.0 : ℚ) = 32767 := by
    unfold toDouble
    rw [roundToPrecision_eq 53 _ (9006924376834048) (-38)
      (by rw [abs_of_pos (by norm_num)]; norm_num)
      (by rw [abs_of_pos (by norm_num)]; norm_num)
      (by rw [abs_lt]; constructor <;> norm_num)]
    norm_num
  have e3 : toDouble ((-32768) / 32767 : ℚ) = (-35185445863425 / 35184372088832) := by
    unfold toDouble
    rw [roundToPrecision_eq 53 _ (-4503737070518400) (-52)
      (by rw [abs_of_neg (by norm_num)]; norm_num)
      (by rw [abs_of_neg (by norm_num)]; norm_num)
      (by rw [abs_lt]; constructor <;> norm_num)]
    norm_num
  have e4 : toFloat ((-35185445863425 / 35184372088832) : ℚ) = (-32769 / 32768) := by
    unfold toFloat
    rw [roundToPrecision_eq 24 _ (-8388864) (-23)
      (by rw [abs_of_neg (by norm_num)]; norm_num)
      (by rw [abs_of_neg (by norm_num)]; norm_num)
      (by rw [abs_lt]; constructor <;> norm_num)]
    norm_num
  have e5 : toDouble (2.048 : ℚ) = (1152921504606847 / 562949953421312) := by
    unfold toDouble
    rw [roundToPrecision_eq 53 _ (4611686018427388) (-51)
      (by rw [abs_of_pos (by norm_num)]; norm_num)
      (by rw [abs_of_pos (by norm_num)]; norm_num)
      (by rw [abs_lt]; constructor <;> norm_num)]
    norm_num
  have e6 : toDouble ((-32769 / 32768) * (1152921504606847 / 562949953421312) : ℚ) = (-4611826755915743 / 2251799813685248) := by
    unfold toDouble
    rw [roundToPrecision_eq 53 _ (-4611826755915743) (-51)
      (by rw [abs_of_neg (by norm_num)]; norm_num)
      (by rw [abs_of_neg (by norm_num)]; norm_num)
      (by rw [abs_lt]; constructor <;> norm_num)]
    norm_num
  have e7 : toFloat ((-4611826755915743 / 2251799813685248) : ℚ) = (-8590197 / 4194304) := by
    unfold toFloat
    rw [roundToPrecision_eq 24 _ (-8590197) (-22)
      (by rw [abs_of_neg (by norm_num)]; norm_num)
      (by rw [abs_of_neg (by norm_num)]; norm_num)
      (by rw [abs_lt]; constructor <;> norm_num)]
    norm_num
  have e8 : toDouble (0.3197 : ℚ) = (2879601601740695 / 9007199254740992) := by
    unfold toDouble
    rw [roundToPrecision_eq 53 _ (5759203203481390) (-54)
      (by rw [abs_of_pos (by norm_num)]; norm_num)
      (by rw [abs_of_pos (by norm_num)]; norm_num)
      (by rw [abs_lt]; constructor <;> norm_num)]
    norm_num
  have e9 : toDouble ((-8590197 / 4194304) / (2879601601740695 / 9007199254740992) : ℚ) = (-901592684088533 / 140737488355328) := by
    unfold toDouble
    rw [roundToPrecision_eq 53 _ (-7212741472708264) (-50)
      (by rw [abs_of_neg (by norm_num)]; norm_num)
      (by rw [abs_of_neg (by norm_num)]; norm_num)
      (by rw [abs_lt]; constructor <;> norm_num)]
    norm_num
  have e10 : toFloat ((-901592684088533 / 140737488355328) : ℚ) = (-6717389 / 1048576) := by
    unfold toFloat
    rw [roundToPrecision_eq 24 _ (-13434778) (-21)
      (by rw [abs_of_neg (by norm_num)]; norm_num)
      (by rw [abs_of_neg (by norm_num)]; norm_num)
      (by rw [abs_lt]; constructor <;> norm_num)]
    norm_num
  show toFloat (toDouble (toFloat (toDouble (toFloat (toDouble
    (toDouble (((-32768 : ℤ) : ℚ) : ℚ) / toDouble (32767.0 : ℚ))) * toDouble (2.048 : ℚ)))
      / toDouble (0.3197 : ℚ))) = _
  rw [e1, e2, e3, e4, e5, e6, e7, e8, e9, e10]

/-- The value `convertDataToDischargeCurrent` computes for the sample `32767`. -/
theorem convertDataToDischargeCurrent_max (st : DataStatus) :
    convertDataToDischargeCurrent { st := st, value := 32767 } = 10240 := by
  have e1 : toDouble (((32767 : ℤ) : ℚ) : ℚ) = 32767 := by
    unfold toDouble
    rw [roundToPrecision_eq 53 _ (9006924376834048) (-38)
      (by rw [abs_of_pos (by norm_num)]; norm_num)
      (by rw [abs_of_pos (by norm_num)]; norm_num)
      (by rw [abs_lt]; constructor <;> norm_num)]
    norm_num
  have e2 : toDouble (1000.0 : ℚ) = 1000 := by
    unfold toDouble
    rw [roundToPrecision_eq 53 _ (8796093022208000) (-43)
      (by rw [abs_of_pos (by norm_num)]; norm_num)
      (by rw [abs_of_pos (by norm_num)]; norm_num)
      (by rw [abs_lt]; constructor <;> norm_num)]
    norm_num
  have e3 : toDouble (32767 * 1000 : ℚ) = 32767000 := by
    unfold toDouble
    rw [roundToPrecision_eq 53 _ (8795824586752000) (-28)
      (by rw [abs_of_pos (by norm_num)]; norm_num)
      (by rw [abs_of_pos (by norm_num)]; norm_num)
      (by rw [abs_lt]; constructor <;> norm_num)]
    norm_num
  have e4 : toFloat (32767000 : ℚ) = 32767000 := by
    unfold toFloat
    rw [roundToPrecision_eq 24 _ (16383500) (1)
      (by rw [abs_of_pos (by norm_num)]; norm_num)
      (by rw [abs_of_pos (by norm_num)]; norm_num)
      (by rw [abs_lt]; constructor <;> norm_num)]
    norm_num
  have e5 : toDouble (32767.0 : ℚ) = 32767 := by
    unfold toDouble
    rw [roundToPrecision_eq 53 _ (9006924376834048) (-38)
      (by rw [abs_of_pos (by norm_num)]; norm_num)
      (by rw [abs_of_pos (by norm_num)]; norm_num)
      (by rw [abs_lt]; constructor <;> norm_num)]
    norm_num
  have e6 : toDouble (32767000 / 32767 : ℚ) = 1000 := by
    unfold toDouble
    rw [roundToPrecision_eq 53 _ (8796093022208000) (-43)
      (by rw [abs_of_pos (by norm_num)]; norm_num)
      (by rw [abs_of_pos (by norm_num)]; norm_num)
      (by rw [abs_lt]; constructor <;> norm_num)]
    norm_num
  have e7 : toFloat (1000 : ℚ) = 1000 := by
    unfold toFloat
    rw [roundToPrecision_eq 24 _ (16384000) (-14)
      (by rw [abs_of_pos (by norm_num)]; norm_num)
      (by rw [abs_of_pos (by norm_num)]; norm_num)
      (by rw [abs_lt]; constructor <;> norm_num)]
    norm_num
  have e8 : toDouble (2.048 : ℚ) = (1152921504606847 / 562949953421312) := by
    unfold toDouble
    rw [roundToPrecision_eq 53 _ (4611686018427388) (-51)
      (by rw [abs_of_pos (by norm_num)]; norm_num)
      (by rw [abs_of_pos (by norm_num)]; norm_num)
      (by rw [abs_lt]; constructor <;> norm_num)]
    norm_num
  have e9 : toDouble (1000 * (1152921504606847 / 562949953421312) : ℚ) = 2048 := by
    unfold toDouble
    rw [roundToPrecision_eq 53 _ (4503599627370496) (-41)
      (by rw [abs_of_pos (by norm_num)]; norm_num)
      (by rw [abs_of_pos (by norm_num)]; norm_num)
      (by rw [abs_lt]; constructor <;> norm_num)]
    norm_num
  have e10 : toFloat (2048 : ℚ) = 2048 := by
    unfold toFloat
    rw [roundToPrecision_eq 24 _ (8388608) (-12)
      (by rw [abs_of_pos (by norm_num)]; norm_num)
      (by rw [abs_of_pos (by norm_num)]; norm_num)
      (by rw [abs_lt]; constructor <;> norm_num)]
    norm_num
  have e11 : toDouble (0.2 : ℚ) = (3602879701896397 / 18014398509481984) := by
    unfold toDouble
    rw [roundToPrecision_eq 53 _ (7205759403792794) (-55)
      (by rw [abs_of_pos (by norm_num)]; norm_num)
      (by rw [abs_of_pos (by norm_num)]; norm_num)
      (by rw [abs_lt]; constructor <;> norm_num)]
    norm_num
  have e12 : toDouble (2048 / (3602879701896397 / 18014398509481984) : ℚ) = 10240 := by
    unfold toDouble
    rw [roundToPrecision_eq 53 _ (5629499534213120) (-39)
      (by rw [abs_of_pos (by norm_num)]; norm_num)
      (by rw [abs_of_pos (by norm_num)]; norm_num)
      (by rw [abs_lt]; constructor <;> norm_num)]
    norm_num
  have e13 : toFloat (10240 : ℚ) = 10240 := by
    unfold toFloat
    rw [roundToPrecision_eq 24 _ (10485760) (-10)
      (by rw [abs_of_pos (by norm_num)]; norm_num)
      (by rw [abs_of_pos (by norm_num)]; norm_num)
      (by rw [abs_lt]; constructor <;> norm_num)]
    norm_num
  show toFloat (toDouble (toFloat (toDouble (toFloat (toDouble (toFloat (toDouble
    (toDouble (((32767 : ℤ) : ℚ) : ℚ) * toDouble (1000.0 : ℚ))) / toDouble (32767.0 : ℚ)))
      * toDouble (2.048 : ℚ))) / toDouble (0.2 : ℚ))) = _
  rw [e1, e2, e3, e4, e5, e6, e7, e8, e9, e10, e11, e12, e13]

/-- The value `convertDataToChargeCurrent` computes for the sample `32767`. -/
theorem convertDataToChargeCurrent_max (st : DataStatus) :
    convertDataToChargeCurrent { st := st, value := 32767 } = 10240 := by
  have e1 : toDouble (((32767 : ℤ) : ℚ) : ℚ) = 32767 := by
    unfold toDouble
    rw [roundToPrecision_eq 53 _ (9006924376834048) (-38)
      (by rw [abs_of_pos (by norm_num)]; norm_num)
      (by rw [abs_of_pos (by norm_num)]; norm_num)
      (by rw [abs_lt]; constructor <;> norm_num)]
    norm_num
  have e2 : toDouble (1000.0 : ℚ) = 1000 := by
    unfold toDouble
    rw [roundToPrecision_eq 53 _ (8796093022208000) (-43)
      (by rw [abs_of_pos (by norm_num)]; norm_num)
      (by rw [abs_of_pos (by norm_num)]; norm_num)
      (by rw [abs_lt]; constructor <;> norm_num)]
    norm_num
  have e3 : toDouble (32767 * 1000 : ℚ) = 32767000 := by
    unfold toDouble
    rw [roundToPrecision_eq 53 _ (8795824586752000) (-28)
      (by rw [abs_of_pos (by norm_num)]; norm_num)
      (by rw [abs_of_pos (by norm_num)]; norm_num)
      (by rw [abs_lt]; constructor <;> norm_num)]
    norm_num
  have e4 : toFloat (32767000 : ℚ) = 32767000 := by
    unfold toFloat
    rw [roundToPrecision_eq 24 _ (16383500) (1)
      (by rw [abs_of_pos (by norm_num)]; norm_num)
      (by rw [abs_of_pos (by norm_num)]; norm_num)
      (by rw [abs_lt]; constructor <;> norm_num)]
    norm_num
  have e5 : toDouble (32767.0 : ℚ) = 32767 := by
    unfold toDouble
    rw [roundToPrecision_eq 53 _ (9006924376834048) (-38)
      (by rw [abs_of_pos (by norm_num)]; norm_num)
      (by rw [abs_of_pos (by norm_num)]; norm_num)
      (by rw [abs_lt]; constructor <;> norm_num)]
    norm_num
  have e6 : toDouble (32767000 / 32767 : ℚ) = 1000 := by
    unfold toDouble
    rw [roundToPrecision_eq 53 _ (8796093022208000) (-43)
      (by rw [abs_of_pos (by norm_num)]; norm_num)
      (by rw [abs_of_pos (by norm_num)]; norm_num)
      (by rw [abs_lt]; constructor <;> norm_num)]
    norm_num
  have e7 : toFloat (1000 : ℚ) = 1000 := by
    unfold toFloat
    rw [roundToPrecision_eq 24 _ (16384000) (-14)
      (by rw [abs_of_pos (by norm_num)]; norm_num)
      (by rw [abs_of_pos (by norm_num)]; norm_num)
      (by rw [abs_lt]; constructor <;> norm_num)]
    norm_num
  have e8 : toDouble (2.048 : ℚ) = (1152921504606847 / 562949953421312) := by
    unfold toDouble
    rw [roundToPrecision_eq 53 _ (4611686018427388) (-51)
      (by rw [abs_of_pos (by norm_num)]; norm_num)
      (by rw [abs_of_pos (by norm_num)]; norm_num)
      (by rw [abs_lt]; constructor <;> norm_num)]
    norm_num
  have e9 : toDouble (1000 * (1152921504606847 / 562949953421312) : ℚ) = 2048 := by
    unfold toDouble
    rw [roundToPrecision_eq 53 _ (4503599627370496) (-41)
      (by rw [abs_of_pos (by norm_num)]; norm_num)
      (by rw [abs_of_pos (by norm_num)]; norm_num)
      (by rw [abs_lt]; constructor <;> norm_num)]
    norm_num
  have e10 : toFloat (2048 : ℚ) = 2048 := by
    unfold toFloat
    rw [roundToPrecision_eq 24 _ (8388608) (-12)
      (by rw [abs_of_pos (by norm_num)]; norm_num)
      (by rw [abs_of_pos (by norm_num)]; norm_num)
      (by rw [abs_lt]; constructor <;> norm_num)]
    norm_num
  have e11 : toDouble (0.2 : ℚ) = (3602879701896397 / 18014398509481984) := by
    unfold toDouble
    rw [roundToPrecision_eq 53 _ (7205759403792794) (-55)
      (by rw [abs_of_pos (by norm_num)]; norm_num)
      (by rw [abs_of_pos (by norm_num)]; norm_num)
      (by rw [abs_lt]; constructor <;> norm_num)]
    norm_num
  have e12 : toDouble (2048 / (3602879701896397 / 18014398509481984) : ℚ) = 10240 := by
    unfold toDouble
    rw [roundToPrecision_eq 53 _ (5629499534213120) (-39)
      (by rw [abs_of_pos (by norm_num)]; norm_num)
      (by rw [abs_of_pos (by norm_num)]; norm_num)
      (by rw [abs_lt]; constructor <;> norm_num)]
    norm_num
  have e13 : toFloat (10240 : ℚ) = 10240 := by
    unfold toFloat
    rw [roundToPrecision_eq 24 _ (10485760) (-10)
      (by rw [abs_of_pos (by norm_num)]; norm_num)
      (by rw [abs_of_pos (by norm_num)]; norm_num)
      (by rw [abs_lt]; constructor <;> norm_num)]
    norm_num
  show toFloat (toDouble (toFloat (toDouble (toFloat (toDouble (toFloat (toDouble
    (toDouble (((32767 : ℤ) : ℚ) : ℚ) * toDouble (1000.0 : ℚ))) / toDouble (32767.0 : ℚ)))
      * toDouble (2.048 : ℚ))) / toDouble (0.2 : ℚ))) = _
  rw [e1, e2, e3, e4, e5, e6, e7, e8, e9, e10, e11, e12, e13]

/-- Relative error of `convertDataToVoltage` against the exact quotient. -/
theorem convertDataToVoltage_relErr (data : Data) :
    |convertDataToVoltage data - (data.value : ℚ) / 32767 * 2.048 / 0.3197|
      ≤ 1 / 2 ^ 22 * |(data.value : ℚ) / 32767 * 2.048 / 0.3197| := by
  have q := relErr_div _ _ _ _ (1 / 2 ^ 53) (1 / 2 ^ 53) (3 / 2 ^ 53)
    (relErr_const (data.value : ℚ) _ rfl) (relErr_const (32767.0 : ℚ) 32767 (by norm_num))
    (by norm_num) (by norm_num) (by norm_num) (by norm_num) (by norm_num)
  have a1 := relErr_assign _ _ _ (1 / 2 ^ 24 + 6 / 2 ^ 53) q (by norm_num)
  have m := relErr_mul _ _ _ _ _ (1 / 2 ^ 53) (1 / 2 ^ 24 + 8 / 2 ^ 53) a1
    (relErr_const (2.048 : ℚ) _ rfl) (by norm_num) (by norm_num)
  have a2 := relErr_assign _ _ _ (2 / 2 ^ 24 + 43 / 2 ^ 53) m (by norm_num)
  have d := relErr_div _ _ _ _ _ (1 / 2 ^ 53) (2 / 2 ^ 24 + 45 / 2 ^ 53) a2
    (relErr_const (0.3197 : ℚ) _ rfl)
    (by norm_num) (by norm_num) (by norm_num) (by norm_num) (by norm_num)
  exact relErr_assign _ _ _ (1 / 2 ^ 22) d (by norm_num)

/-- Relative error of `convertDataToDischargeCurrent` against the exact quotient. -/
theorem convertDataToDischargeCurrent_relErr (data : Data) :
    |convertDataToDischargeCurrent data - (data.value : ℚ) * 1000 / 32767 * 2.048 / 0.2|
      ≤ 1 / 2 ^ 21 * |(data.value : ℚ) * 1000 / 32767 * 2.048 / 0.2| := by
  have p := relErr_mul _ _ _ _ (1 / 2 ^ 53) (1 / 2 ^ 53) (3 / 2 ^ 53)
    (relErr_const (data.value : ℚ) _ rfl) (relErr_const (1000.0 : ℚ) 1000 (by norm_num))
    (by norm_num) (by norm_num)
  have a0 := relErr_assign _ _ _ (1 / 2 ^ 24 + 6 / 2 ^ 53) p (by norm_num)
  have q := relErr_div _ _ _ _ _ (1 / 2 ^ 53) (1 / 2 ^ 24 + 8 / 2 ^ 53) a0
    (relErr_const (32767.0 : ℚ) 32767 (by norm_num))
    (by norm_num) (by norm_num) (by norm_num) (by norm_num) (by norm_num)
  have a1 := relErr_assign _ _ _ (2 / 2 ^ 24 + 50 / 2 ^ 53) q (by norm_num)
  have m := relErr_mul _ _ _ _ _ (1 / 2 ^ 53) (2 / 2 ^ 24 + 52 / 2 ^ 53) a1
    (relErr_const (2.048 : ℚ) _ rfl) (by norm_num) (by norm_num)
  have a2 := relErr_assign _ _ _ (3 / 2 ^ 24 + 120 / 2 ^ 53) m (by norm_num)
  have d := relErr_div _ _ _ _ _ (1 / 2 ^ 53) (3 / 2 ^ 24 + 122 / 2 ^ 53) a2
    (relErr_const (0.2 : ℚ) _ rfl)
    (by norm_num) (by norm_num) (by norm_num) (by norm_num) (by norm_num)
  exact relErr_assign _ _ _ (1 / 2 ^ 21) d (by norm_num)

/-- The two current converters are the same computation. -/
theorem convertDataToChargeCurrent_eq (data : Data) :
    convertDataToChargeCurrent data = convertDataToDischargeCurrent data := rfl

/-- Magnitude of a sample in the `int16_t` range. -/
theorem abs_value_le (v : ℤ) (hlo : -32768 ≤ v) (hhi : v ≤ 32767) : |(v : ℚ)| ≤ 32768 := by
  rw [abs_le]
  constructor
  · exact_mod_cast hlo
  · have : (v : ℚ) ≤ 32767 := by exact_mod_cast hhi
    linarith

/-! ## Claims on the unit converters -/

/-- C14 as stated fails on the code. Both current converters first multiply the sample by
`1000.0` (lines 172 and 181): for the sample `32767` they return exactly `10240`, while
`v / 32767 * 2.048 / 0.2` is `10.24`. -/
theorem C14_counterexample_factor_1000 :
    convertDataToDischargeCurrent { st := DATA_UPDATED, value := 32767 } = 10240 ∧
    convertDataToChargeCurrent { st := DATA_UPDATED, value := 32767 } = 10240 ∧
    ((32767 : ℤ) : ℚ) / 32767 * 2.048 / 0.2 = 10.24 ∧
    convertDataToDischargeCurrent { st := DATA_UPDATED, value := 32767 }
      ≠ ((32767 : ℤ) : ℚ) / 32767 * 2.048 / 0.2 ∧
    convertDataToChargeCurrent { st := DATA_UPDATED, value := 32767 }
      ≠ ((32767 : ℤ) : ℚ) / 32767 * 2.048 / 0.2 := by
  rw [convertDataToDischargeCurrent_max, convertDataToChargeCurrent_max]
  norm_num

/-- C14, amended. For every sample value `v` in the `int16_t` range,
`convertDataToDischargeCurrent` and `convertDataToChargeCurrent` both return the `float`
obtained by multiplying `v` by `1000`, dividing by `32767`, scaling by `2.048` and dividing by
`0.2`, each step computed in `double` and rounded to `float`: the result differs from
`v * 1000 / 32767 * 2.048 / 0.2` (exact arithmetic over the decimal constants) by at most
`2^-21` of its magnitude, hence by less than `0.005`; and the two functions agree on every
input. -/
theorem C14_current_converters (data : Data)
    (hlo : -32768 ≤ data.value) (hhi : data.value ≤ 32767) :
    |convertDataToDischargeCurrent data - (data.value : ℚ) * 1000 / 32767 * 2.048 / 0.2|
      ≤ |(data.value : ℚ) * 1000 / 32767 * 2.048 / 0.2| / 2 ^ 21 ∧
    |convertDataToChargeCurrent data - (data.value : ℚ) * 1000 / 32767 * 2.048 / 0.2|
      ≤ |(data.value : ℚ) * 1000 / 32767 * 2.048 / 0.2| / 2 ^ 21 ∧
    |convertDataToDischargeCurrent data - (data.value : ℚ) * 1000 / 32767 * 2.048 / 0.2|
      < 0.005 ∧
    |convertDataToChargeCurrent data - (data.value : ℚ) * 1000 / 32767 * 2.048 / 0.2|
      < 0.005 ∧
    convertDataToDischargeCurrent data = convertDataToChargeCurrent data := by
  have hrel := convertDataToDischargeCurrent_relErr data
  have hv := abs_value_le data.value hlo hhi
  have hex : |(data.value : ℚ) * 1000 / 32767 * 2.048 / 0.2| ≤ 32768 * (1000 / 32767 * 2.048 / 0.2) := by
    have e : (data.value : ℚ) * 1000 / 32767 * 2.048 / 0.2
        = (data.value : ℚ) * (1000 / 32767 * 2.048 / 0.2) := by ring
    rw [e, abs_mul, abs_of_pos (show (0 : ℚ) < 1000 / 32767 * 2.048 / 0.2 by norm_num)]
    gcongr
  have hrel' : |convertDataToDischargeCurrent data
      - (data.value : ℚ) * 1000 / 32767 * 2.048 / 0.2|
      ≤ |(data.value : ℚ) * 1000 / 32767 * 2.048 / 0.2| / 2 ^ 21 := by
    calc _ ≤ 1 / 2 ^ 21 * |(data.value : ℚ) * 1000 / 32767 * 2.048 / 0.2| := hrel
      _ = |(data.value : ℚ) * 1000 / 32767 * 2.048 / 0.2| / 2 ^ 21 := by ring
  have habs : |convertDataToDischargeCurrent data
      - (data.value : ℚ) * 1000 / 32767 * 2.048 / 0.2| < 0.005 := by
    calc _ ≤ |(data.value : ℚ) * 1000 / 32767 * 2.048 / 0.2| / 2 ^ 21 := hrel'
      _ ≤ 32768 * (1000 / 32767 * 2.048 / 0.2) / 2 ^ 21 := by gcongr
      _ < 0.005 := by norm_num
  rw [convertDataToChargeCurrent_eq]
  exact ⟨hrel', hrel', habs, habs, rfl⟩

/-- C14 amended, at the sample `32767`: both converters return `10240`. -/
theorem C14_current_converters_witness :
    (-32768 : ℤ) ≤ 32767 ∧ (32767 : ℤ) ≤ 32767 ∧
    convertDataToDischargeCurrent { st := DATA_UPDATED, value := 32767 } = 10240 ∧
    |convertDataToDischargeCurrent { st := DATA_UPDATED, value := 32767 }
      - ((32767 : ℤ) : ℚ) * 1000 / 32767 * 2.048 / 0.2| < 0.005 ∧
    convertDataToDischargeCurrent { st := DATA_UPDATED, value := 32767 }
      = convertDataToChargeCurrent { st := DATA_UPDATED, value := 32767 } :=
  have h := C14_current_converters { st := DATA_UPDATED, value := 32767 }
    (by decide) (by decide)
  ⟨by decide, by decide, convertDataToDischargeCurrent_max DATA_UPDATED, h.2.2.1, h.2.2.2.2⟩

/-- C17 as stated fails on the code. The function returns a `float`: for the sample
`-32768` it returns `-6717389 / 1048576`, which is not the exact quotient
`-(32768/32767) * 2.048 / 0.3197`. -/
theorem C17_counterexample_rounded_result :
    convertDataToVoltage { st := DATA_UPDATED, value := -32768 } = -6717389 / 1048576 ∧
    convertDataToVoltage { st := DATA_UPDATED, value := -32768 }
      ≠ -(32768 / 32767 : ℚ) * 2.048 / 0.3197 ∧
    convertDataToVoltage { st := DATA_UPDATED, value := -32768 }
      ≠ ((-32768 : ℤ) : ℚ) / 32767 * 2.048 / 0.3197 := by
  rw [convertDataToVoltage_min]
  norm_num

/-- C17, amended. For every sample value `v` in the `int16_t` range, `convertDataToVoltage`
returns the `float` obtained by dividing `v` by `32767`, scaling by `2.048` and dividing by
`0.3197`, each step computed in `double` and rounded to `float`: the result differs from
`v / 32767 * 2.048 / 0.3197` (exact arithmetic over the decimal constants) by at most
`2^-22` of its magnitude, hence by less than `0.000002`. The sample is converted to `double`
before any arithmetic, so nothing overflows at `v = -32768`: the result there is
`-6717389 / 1048576`, which differs from `-2.048 / 0.3197` by less than `0.001`. -/
theorem C17_convertDataToVoltage (data : Data)
    (hlo : -32768 ≤ data.value) (hhi : data.value ≤ 32767) :
    |convertDataToVoltage data - (data.value : ℚ) / 32767 * 2.048 / 0.3197|
      ≤ |(data.value : ℚ) / 32767 * 2.048 / 0.3197| / 2 ^ 22 ∧
    |convertDataToVoltage data - (data.value : ℚ) / 32767 * 2.048 / 0.3197| < 0.000002 ∧
    convertDataToVoltage { st := data.st, value := -32768 } = -6717389 / 1048576 ∧
    |convertDataToVoltage { st := data.st, value := -32768 } - (-(2.048 : ℚ) / 0.3197)|
      < 0.001 := by
  have hrel := convertDataToVoltage_relErr data
  have hv := abs_value_le data.value hlo hhi
  have hex : |(data.value : ℚ) / 32767 * 2.048 / 0.3197| ≤ 32768 * (1 / 32767 * 2.048 / 0.3197) := by
    have e : (data.value : ℚ) / 32767 * 2.048 / 0.3197
        = (data.value : ℚ) * (1 / 32767 * 2.048 / 0.3197) := by ring
    rw [e, abs_mul, abs_of_pos (show (0 : ℚ) < 1 / 32767 * 2.048 / 0.3197 by norm_num)]
    gcongr
  have hrel' : |convertDataToVoltage data - (data.value : ℚ) / 32767 * 2.048 / 0.3197|
      ≤ |(data.value : ℚ) / 32767 * 2.048 / 0.3197| / 2 ^ 22 := by
    calc _ ≤ 1 / 2 ^ 22 * |(data.value : ℚ) / 32767 * 2.048 / 0.3197| := hrel
      _ = |(data.value : ℚ) / 32767 * 2.048 / 0.3197| / 2 ^ 22 := by ring
  refine ⟨hrel', ?_, convertDataToVoltage_min data.st, ?_⟩
  · calc _ ≤ |(data.value : ℚ) / 32767 * 2.048 / 0.3197| / 2 ^ 22 := hrel'
      _ ≤ 32768 * (1 / 32767 * 2.048 / 0.3197) / 2 ^ 22 := by gcongr
      _ < 0.000002 := by norm_num
  · rw [convertDataToVoltage_min, abs_lt]
    constructor <;> norm_num

/-- C17 amended, at the most negative sample. -/
theorem C17_convertDataToVoltage_witness :
    (-32768 : ℤ) ≤ -32768 ∧ (-32768 : ℤ) ≤ 32767 ∧
    |convertDataToVoltage { st := DATA_UPDATED, value := -32768 }
      - ((-32768 : ℤ) : ℚ) / 32767 * 2.048 / 0.3197| < 0.000002 ∧
    convertDataToVoltage { st := DATA_UPDATED, value := -32768 } = -6717389 / 1048576 ∧
    |convertDataToVoltage { st := DATA_UPDATED, value := -32768 } - (-(2.048 : ℚ) / 0.3197)|
      < 0.001 :=
  have h := C17_convertDataToVoltage { st := DATA_UPDATED, value := -32768 }
    (by decide) (by decide)
  ⟨by decide, by decide, h.2.1, h.2.2.1, h.2.2.2⟩

end Bms
